import Mathlib

/-!
Verification of the geometry synthesis and layout engine of the
hydroponics-generator Blender addon.  The Python source under
`src/mesh_creator.py` and `src/operators.py` is shallowly embedded below:
pure dimensional formulas become functions over the reals, the scene and
its collections become an explicit list of named components, and the
Blender boolean solver is abstracted as an oracle parameter.  Python floats
are modelled as real numbers; user volumes are in liters and pipe sizes in
millimeters, as in the source, with the division by 1000 at the boundary.
The scene model tracks, for every generated object, its collection, its
name and its world location; rotations and mesh data are not tracked, and
for the bounding-box computation each object contributes its origin as a
degenerate box in place of its mesh extents.
-/

namespace HydroGen

/-- Three-dimensional vector, the model of mathutils.Vector. -/
structure Vec3 where
  x : ℝ
  y : ℝ
  z : ℝ

instance : Add Vec3 := ⟨fun a b => ⟨a.x + b.x, a.y + b.y, a.z + b.z⟩⟩

instance : Sub Vec3 := ⟨fun a b => ⟨a.x - b.x, a.y - b.y, a.z - b.z⟩⟩

instance : SMul ℝ Vec3 := ⟨fun t a => ⟨t * a.x, t * a.y, t * a.z⟩⟩

/-- Euclidean length of a vector, the model of Vector.length. -/
noncomputable def Vec3.length (a : Vec3) : ℝ := Real.sqrt (a.x ^ 2 + a.y ^ 2 + a.z ^ 2)

/-!
Vessel dimensional formulas, from `src/mesh_creator.py`.
PotMesh.create: radius = (volume_m3 / (2.5 pi))^(1/3), height = 2.5 radius.
ReservoirMesh.create: radius = (volume_m3 / (3 pi))^(1/3), height = 1.5 (2 radius).
BalanceTankMesh.create: radius = (volume_m3 / (1.5 pi))^(1/3), height = 0.75 (2 radius).
-/

/-- Pot radius from the volume in liters (mesh_creator.py line 68). -/
noncomputable def PotMesh.radius (volume_liters : ℝ) : ℝ :=
  ((volume_liters / 1000) / (2.5 * Real.pi)) ^ ((1 : ℝ) / 3)

/-- Pot height (mesh_creator.py line 69). -/
noncomputable def PotMesh.height (volume_liters : ℝ) : ℝ :=
  2.5 * PotMesh.radius volume_liters

/-- Reservoir radius (mesh_creator.py line 119). -/
noncomputable def ReservoirMesh.radius (volume_liters : ℝ) : ℝ :=
  ((volume_liters / 1000) / (3 * Real.pi)) ^ ((1 : ℝ) / 3)

/-- Reservoir height (mesh_creator.py line 120). -/
noncomputable def ReservoirMesh.height (volume_liters : ℝ) : ℝ :=
  1.5 * (2 * ReservoirMesh.radius volume_liters)

/-- Balance tank radius (mesh_creator.py line 170). -/
noncomputable def BalanceTankMesh.radius (volume_liters : ℝ) : ℝ :=
  ((volume_liters / 1000) / (1.5 * Real.pi)) ^ ((1 : ℝ) / 3)

/-- Balance tank height (mesh_creator.py line 171). -/
noncomputable def BalanceTankMesh.height (volume_liters : ℝ) : ℝ :=
  0.75 * (2 * BalanceTankMesh.radius volume_liters)

/-!
The boolean compositor helper `_apply_boolean` from `src/mesh_creator.py`
(lines 10-24).  The Blender solver behind bpy.ops.object.modifier_apply is
abstracted as an oracle over an arbitrary mesh type: some m means the
modifier application succeeded and produced mesh m, none means it raised
RuntimeError, in which case the evaluated base mesh is untouched and the
except branch removes the failed modifier from the stack.  The cutter
object is removed after the try block unless keep_cutter is set.
-/

/-- Result state of one _apply_boolean call. -/
structure BooleanResult (Mesh : Type) where
  base : Mesh
  base_modifiers : List String
  cutter_removed : Bool

/-- Model of _apply_boolean. -/
def apply_boolean {Mesh : Type} (solver : Mesh → Mesh → Option Mesh)
    (base : Mesh) (base_modifiers : List String) (cutter : Mesh)
    (keep_cutter : Bool) : BooleanResult Mesh :=
  let with_mod := base_modifiers ++ ["Boolean"]
  match solver base cutter with
  | some m => ⟨m, with_mod.dropLast, !keep_cutter⟩
  | none => ⟨base, with_mod.dropLast, !keep_cutter⟩

/-!
The pipe factory, from PipeMesh.create in `src/mesh_creator.py`
(lines 203-221).
-/

/-- Cylinder object as produced by PipeMesh.create: location is the world
center, depth is the cylinder length along its axis.  The track-quaternion
orientation of the source is not tracked beyond the endpoints from which
the pipe was built. -/
structure PipeObj where
  name : String
  loc : Vec3
  radius : ℝ
  depth : ℝ

/-- Model of PipeMesh.create: the pipe diameter is pipe_size mm over 1000;
when the endpoint distance is below 0.0001 no object is produced (returns
none), otherwise a cylinder of depth equal to that distance located at
start_loc + diff/2. -/
noncomputable def PipeMesh.create (pipe_size : ℝ) (name : String)
    (start_loc end_loc : Vec3) : Option PipeObj :=
  let diameter := pipe_size / 1000
  let diff := end_loc - start_loc
  let length := diff.length
  if length < 0.0001 then none
  else some ⟨name, start_loc + (1 / 2 : ℝ) • diff, diameter / 2, length⟩

/-!
Fitting geometry, from FittingMesh and TeeFittingMesh in
`src/mesh_creator.py` and the dimension block of execute in
`src/operators.py` (lines 579-580).
-/

/-- Outer pipe diameter in meters (FittingMesh.get_diameter). -/
noncomputable def FittingMesh.get_diameter (pipe_size : ℝ) : ℝ := pipe_size / 1000

/-- Socket length of the tee fitting (mesh_creator.py line 243). -/
noncomputable def TeeFittingMesh.socket_length (diameter : ℝ) : ℝ := diameter * 0.6

/-- Arm core length of the tee fitting (mesh_creator.py line 244). -/
noncomputable def TeeFittingMesh.arm_core_length (diameter : ℝ) : ℝ := diameter * 0.8

/-- Total reach from the tee center to the open face of a socket, the
connection offset: arm core length plus socket length (operators.py 579). -/
noncomputable def tee_arm_total_length (diameter : ℝ) : ℝ :=
  diameter * 0.8 + diameter * 0.6

/-- Depth by which a manifold pipe end is inserted past the socket face,
40 percent of the socket length (operators.py 580). -/
noncomputable def pipe_insertion_depth (diameter : ℝ) : ℝ :=
  (diameter * 0.6) * 0.4

/-!
Configuration records, from the property groups of `src/properties.py`.
Only the fields read by the generation code are modelled.
-/

/-- Values of the layout_type enum offered by HydroponicsLayoutProperties;
only the first three have a branch in the operator. -/
inductive LayoutType
  | GRID
  | LINEAR
  | CIRCULAR
  | STAGGERED
  | CUSTOM
deriving DecidableEq

/-- Layout property group (rows and columns are at least 1 in the UI;
spacings and radius are positive floats). -/
structure LayoutProps where
  layout_type : LayoutType
  rows : ℕ
  columns : ℕ
  spacing_x : ℝ
  spacing_y : ℝ
  circle_radius : ℝ

/-- Pipe property group: the numeric pipe size in millimeters, the height
of the pipe plane as a percentage of the pot height, and the slope in
degrees (default 1.0, range -5 to 5). -/
structure PipeProps where
  pipe_size : ℝ
  pipe_height_ratio : ℝ
  pipe_slope : ℝ

/-- Component property group fields read by the operator. -/
structure ComponentProps where
  add_drain_valves : Bool
  add_water_level_sensors : Bool
  add_flow_indicators : Bool
  use_unions : Bool
  air_stones_per_pot : ℕ

/-- Lighting property group fields read by the operator. -/
structure LightingProps where
  enable_lighting : Bool
  light_height : ℝ

/-- Configuration record handed to the operator: the scene property tree
flattened to the fields the generation run reads.  pot_volume and
reservoir_volume are the float values of the volume enums. -/
structure Config where
  layout_props : LayoutProps
  pipe_props : PipeProps
  pot_volume : ℝ
  reservoir_volume : ℝ
  component_props : ComponentProps
  lighting_props : LightingProps
  enable_reservoir : Bool
  create_connections : Bool
  optimize_model : Bool

/-!
Placement helpers from `src/operators.py`.
-/

/-- Degrees to radians, the model of math.radians. -/
noncomputable def radians (d : ℝ) : ℝ := d * (Real.pi / 180)

/-- Model of _calculate_pipe_height (operators.py 72-81): base times ratio
over 100, plus the slope correction proportional to the signed distance
from the grid center when the slope is nonzero. -/
noncomputable def calculate_pipe_height (base_height : ℝ) (pp : PipeProps)
    (distance_from_center : ℝ) : ℝ :=
  let z := base_height * (pp.pipe_height_ratio / 100)
  if pp.pipe_slope ≠ 0 then
    z + distance_from_center * Real.tan (radians pp.pipe_slope)
  else z

/-- Model of _calculate_pot_positions (operators.py 48-70): grid, linear
and circular placements; unrecognized layout types yield the empty list. -/
noncomputable def calculate_pot_positions (layout : LayoutProps) : List Vec3 :=
  match layout.layout_type with
  | .GRID =>
      (List.range layout.rows).flatMap fun (r : ℕ) =>
        (List.range layout.columns).map fun (c : ℕ) =>
          ⟨(c : ℝ) * layout.spacing_x, (r : ℝ) * layout.spacing_y, 0⟩
  | .LINEAR =>
      (List.range layout.columns).map fun (i : ℕ) => ⟨(i : ℝ) * layout.spacing_x, 0, 0⟩
  | .CIRCULAR =>
      let num_pots := layout.rows * layout.columns
      (List.range num_pots).map fun (i : ℕ) =>
        let angle := (i : ℝ) * (2 * Real.pi / (num_pots : ℝ))
        ⟨layout.circle_radius * Real.cos angle, layout.circle_radius * Real.sin angle, 0⟩
  | _ => []

/-- Signed distance from the grid center used for the column c tee, from
_generate_grid_manifold: loc_x - (columns - 1) * spacing_x / 2. -/
noncomputable def grid_distance_from_center (layout : LayoutProps) (c : ℕ) : ℝ :=
  (c : ℝ) * layout.spacing_x - ((layout.columns : ℝ) - 1) * layout.spacing_x / 2

/-- Pipe plane height for the column c tee fittings and manifold endpoints. -/
noncomputable def grid_pipe_z (layout : LayoutProps) (pp : PipeProps)
    (pot_height : ℝ) (c : ℕ) : ℝ :=
  calculate_pipe_height pot_height pp (grid_distance_from_center layout c)

/-!
Scene model.  A scene is the flat list of generated objects, each carrying
the name of the collection it is linked to, its object name, and its world
location.
-/

/-- Named object inside a named collection at a world location. -/
structure Component where
  collection : String
  name : String
  loc : Vec3

/-- Scene: the objects of the Blender file relevant to the generator. -/
abbrev Scene := List Component

/-- Collection names removed by _clear_previous (operators.py 37-46). -/
def clear_collection_names : List String :=
  ["Pots", "Pipes", "Fittings", "System", "Lighting", "Components",
   "Pumps", "Aeration", "Sensors", "Valves"]

/-- Model of _clear_previous: every object in one of the named collections
is removed (and the collections themselves deleted). -/
def clear_previous (s : Scene) : Scene :=
  s.filter fun comp => decide (comp.collection ∉ clear_collection_names)

/-!
The dimension block of execute (operators.py 573-587): the probe pot is
created only to read back its height and radius, so the dimensions are the
pot formulas applied to the configured volume.
-/

/-- Shared dimension tuple threaded through the generation helpers. -/
structure Dimensions where
  pot_volume : ℝ
  pot_height : ℝ
  pot_radius : ℝ
  base_pipe_z : ℝ
  tee_arm_total : ℝ
  insertion : ℝ
  manifold_y_in : ℝ
  manifold_y_out : ℝ

/-- Model of the dimension computation in execute. -/
noncomputable def compute_dimensions (cfg : Config) : Dimensions :=
  let layout := cfg.layout_props
  let pot_height := PotMesh.height cfg.pot_volume
  let pot_radius := PotMesh.radius cfg.pot_volume
  let d := FittingMesh.get_diameter cfg.pipe_props.pipe_size
  { pot_volume := cfg.pot_volume
    pot_height := pot_height
    pot_radius := pot_radius
    base_pipe_z := pot_height * 0.15
    tee_arm_total := tee_arm_total_length d
    insertion := pipe_insertion_depth d
    manifold_y_in := ((layout.rows : ℝ) - 1) * layout.spacing_y + layout.spacing_y * 0.8
    manifold_y_out := -(layout.spacing_y * 0.8) }

/-!
Grid manifold generation, from _generate_grid_manifold (operators.py
83-199).  Component lists are in linking order.
-/

/-- Center of the column c tee on a manifold line. -/
noncomputable def tee_center (layout : LayoutProps) (pp : PipeProps)
    (dims : Dimensions) (manifold_y : ℝ) (c : ℕ) : Vec3 :=
  ⟨(c : ℝ) * layout.spacing_x, manifold_y, grid_pipe_z layout pp dims.pot_height c⟩

/-- Start point of the manifold pipe joining columns c-1 and c, over the
previous tee (operators.py 109): the previous tee x plus the tee reach
minus the insertion depth, at the previous column pipe height.  Only used
for c at least 1, as in the source guard. -/
noncomputable def manifold_pipe_start (layout : LayoutProps) (pp : PipeProps)
    (dims : Dimensions) (manifold_y : ℝ) (c : ℕ) : Vec3 :=
  ⟨((c : ℝ) - 1) * layout.spacing_x + dims.tee_arm_total - dims.insertion,
    manifold_y, grid_pipe_z layout pp dims.pot_height (c - 1)⟩

/-- End point of the manifold pipe joining columns c-1 and c, at the column
c tee (operators.py 110). -/
noncomputable def manifold_pipe_end (layout : LayoutProps) (pp : PipeProps)
    (dims : Dimensions) (manifold_y : ℝ) (c : ℕ) : Vec3 :=
  ⟨(c : ℝ) * layout.spacing_x - dims.tee_arm_total + dims.insertion,
    manifold_y, grid_pipe_z layout pp dims.pot_height c⟩

/-- Scene components contributed by one PipeMesh.create call followed by
linking to the Pipes collection; empty when the factory returns none. -/
noncomputable def pipe_components (pipe_size : ℝ) (name : String)
    (start_loc end_loc : Vec3) : List Component :=
  match PipeMesh.create pipe_size name start_loc end_loc with
  | none => []
  | some p => [⟨"Pipes", p.name, p.loc⟩]

/-- Manifold segment between columns c-1 and c (operators.py 105-151),
with the union split when use_unions is set, else one continuous pipe per
manifold line. -/
noncomputable def manifold_segment_components (pp : PipeProps) (cp : ComponentProps)
    (layout : LayoutProps) (dims : Dimensions) (c : ℕ) : List Component :=
  let prev_pipe_z := grid_pipe_z layout pp dims.pot_height (c - 1)
  let pipe_z := grid_pipe_z layout pp dims.pot_height c
  let s_in := manifold_pipe_start layout pp dims dims.manifold_y_in c
  let e_in := manifold_pipe_end layout pp dims dims.manifold_y_in c
  let s_out := manifold_pipe_start layout pp dims dims.manifold_y_out c
  let e_out := manifold_pipe_end layout pp dims dims.manifold_y_out c
  if cp.use_unions then
    let mid_x := (s_in.x + e_in.x) / 2
    let mid_z := (prev_pipe_z + pipe_z) / 2
    [⟨"Fittings", "Union_In_" ++ toString (c - 1), ⟨mid_x, dims.manifold_y_in, mid_z⟩⟩,
     ⟨"Fittings", "Union_Out_" ++ toString (c - 1), ⟨mid_x, dims.manifold_y_out, mid_z⟩⟩] ++
    pipe_components pp.pipe_size ("Manifold_Pipe_In_" ++ toString (c - 1) ++ "_1")
      s_in ⟨mid_x - 0.02, dims.manifold_y_in, mid_z⟩ ++
    pipe_components pp.pipe_size ("Manifold_Pipe_In_" ++ toString (c - 1) ++ "_2")
      ⟨mid_x + 0.02, dims.manifold_y_in, mid_z⟩ e_in ++
    pipe_components pp.pipe_size ("Manifold_Pipe_Out_" ++ toString (c - 1) ++ "_1")
      s_out ⟨mid_x - 0.02, dims.manifold_y_out, mid_z⟩ ++
    pipe_components pp.pipe_size ("Manifold_Pipe_Out_" ++ toString (c - 1) ++ "_2")
      ⟨mid_x + 0.02, dims.manifold_y_out, mid_z⟩ e_out
  else
    pipe_components pp.pipe_size ("Manifold_Pipe_In_" ++ toString (c - 1)) s_in e_in ++
    pipe_components pp.pipe_size ("Manifold_Pipe_Out_" ++ toString (c - 1)) s_out e_out

/-- Components of the column c pass of the manifold loop: the inlet and
outlet tees, then for c at least 1 the segment back to column c-1. -/
noncomputable def grid_column_components (pp : PipeProps) (cp : ComponentProps)
    (layout : LayoutProps) (dims : Dimensions) (c : ℕ) : List Component :=
  [⟨"Fittings", "Tee_Inlet_" ++ toString c, tee_center layout pp dims dims.manifold_y_in c⟩,
   ⟨"Fittings", "Tee_Outlet_" ++ toString c, tee_center layout pp dims dims.manifold_y_out c⟩] ++
  if 0 < c then manifold_segment_components pp cp layout dims c else []

/-- Components of the pot cell (r, c) (operators.py 154-197): the pot, the
optional drain valve with its two pipes or the direct inlet pipe, and the
outlet pipe. -/
noncomputable def grid_pot_cell_components (pp : PipeProps) (cp : ComponentProps)
    (layout : LayoutProps) (dims : Dimensions) (r c : ℕ) : List Component :=
  let loc_x := (c : ℝ) * layout.spacing_x
  let loc_y := (r : ℝ) * layout.spacing_y
  let pipe_z := grid_pipe_z layout pp dims.pot_height c
  let inlet_conn : Vec3 :=
    ⟨loc_x, dims.manifold_y_in - dims.tee_arm_total + dims.insertion, pipe_z⟩
  let pot_edge_in : Vec3 := ⟨loc_x, loc_y + dims.pot_radius, pipe_z⟩
  [(⟨"Pots", "Pot_" ++ toString r ++ "_" ++ toString c,
      ⟨loc_x, loc_y, dims.pot_height / 2⟩⟩ : Component)] ++
  (if cp.add_drain_valves then
    let valve_in_loc : Vec3 :=
      ⟨loc_x, dims.manifold_y_in - dims.tee_arm_total + dims.insertion - 0.05, pipe_z⟩
    [⟨"Valves", "Valve_In_" ++ toString r ++ "_" ++ toString c, valve_in_loc⟩] ++
    pipe_components pp.pipe_size
      ("Pipe_to_valve_in_" ++ toString r ++ "_" ++ toString c)
      inlet_conn (valve_in_loc + ⟨0, -0.04, 0⟩) ++
    pipe_components pp.pipe_size
      ("Pipe_from_valve_in_" ++ toString r ++ "_" ++ toString c)
      (valve_in_loc + ⟨0, 0.04, 0⟩) pot_edge_in
  else
    pipe_components pp.pipe_size
      ("Pot_Pipe_In_" ++ toString r ++ "_" ++ toString c) inlet_conn pot_edge_in) ++
  pipe_components pp.pipe_size
    ("Pot_Pipe_Out_" ++ toString r ++ "_" ++ toString c)
    ⟨loc_x, loc_y - dims.pot_radius, pipe_z⟩
    ⟨loc_x, dims.manifold_y_out + dims.tee_arm_total - dims.insertion, pipe_z⟩

/-- All components of _generate_grid_manifold: the column loop, then the
pot loop in row-major order. -/
noncomputable def grid_manifold_components (pp : PipeProps) (cp : ComponentProps)
    (layout : LayoutProps) (dims : Dimensions) : List Component :=
  ((List.range layout.columns).flatMap fun (c : ℕ) =>
    grid_column_components pp cp layout dims c) ++
  ((List.range layout.rows).flatMap fun (r : ℕ) =>
    (List.range layout.columns).flatMap fun (c : ℕ) =>
      grid_pot_cell_components pp cp layout dims r c)

/-- Pot bookkeeping record appended to pot_objects for each created pot. -/
structure PotInfo where
  name : String
  x : ℝ
  y : ℝ
  height : ℝ
  radius : ℝ

/-- Pot records returned by _generate_grid_manifold, row-major. -/
noncomputable def grid_pot_infos (layout : LayoutProps) (dims : Dimensions) :
    List PotInfo :=
  (List.range layout.rows).flatMap fun (r : ℕ) =>
    (List.range layout.columns).map fun (c : ℕ) =>
      ⟨"Pot_" ++ toString r ++ "_" ++ toString c,
        (c : ℝ) * layout.spacing_x, (r : ℝ) * layout.spacing_y,
        dims.pot_height, dims.pot_radius⟩

/-!
Circular layout, from _generate_circular_layout (operators.py 201-251).
-/

/-- Two-argument arctangent in the math.atan2 argument order, via the
complex argument. -/
noncomputable def atan2 (y x : ℝ) : ℝ := Complex.arg ⟨x, y⟩

/-- Components for the pot of index i at position pos on the circle: the
pot, the radial elbow, and the radial pipe from the center. -/
noncomputable def circular_cell_components (pp : PipeProps) (dims : Dimensions)
    (i : ℕ) (pos : Vec3) : List Component :=
  let pipe_z := calculate_pipe_height dims.pot_height pp 0
  let angle := atan2 pos.y pos.x
  let elbow_pos : Vec3 :=
    ⟨pos.x + Real.cos angle * dims.pot_radius,
      pos.y + Real.sin angle * dims.pot_radius, pos.z + pipe_z⟩
  [⟨"Pots", "Pot_circular_" ++ toString i, ⟨pos.x, pos.y, pos.z + dims.pot_height / 2⟩⟩,
   ⟨"Fittings", "Elbow_circular_" ++ toString i, elbow_pos⟩] ++
  pipe_components pp.pipe_size ("Pipe_radial_" ++ toString i) ⟨0, 0, pipe_z⟩ elbow_pos

/-- All components of _generate_circular_layout: the central manifold block
then the per-pot cells. -/
noncomputable def circular_components (pp : PipeProps) (layout : LayoutProps)
    (dims : Dimensions) : List Component :=
  let positions := calculate_pot_positions layout
  let pipe_z := calculate_pipe_height dims.pot_height pp 0
  [⟨"Fittings", "Central_Manifold", ⟨0, 0, pipe_z⟩⟩] ++
  positions.enum.flatMap fun pi => circular_cell_components pp dims pi.1 pi.2

/-- Pot records returned by _generate_circular_layout. -/
noncomputable def circular_pot_infos (layout : LayoutProps) (dims : Dimensions) :
    List PotInfo :=
  (calculate_pot_positions layout).enum.map fun pi =>
    ⟨"Pot_circular_" ++ toString pi.1, pi.2.x, pi.2.y, dims.pot_height, dims.pot_radius⟩

/-!
Reservoir, balance tank, aeration and lighting subsystems
(operators.py 253-477).
-/

/-- Reservoir placement and dimensions returned by
_generate_reservoir_system. -/
structure ReservoirInfo where
  loc : Vec3
  height : ℝ
  radius : ℝ

/-- Reservoir location (z zero before the vessel is lifted) and the
reservoir cylinder dimensions. -/
noncomputable def reservoir_info (cfg : Config) (dims : Dimensions) : ReservoirInfo :=
  let layout := cfg.layout_props
  let res_h := ReservoirMesh.height cfg.reservoir_volume
  let res_rad := ReservoirMesh.radius cfg.reservoir_volume
  let loc : Vec3 :=
    if layout.layout_type = .CIRCULAR then
      ⟨0, -layout.circle_radius * 1.5, 0⟩
    else
      ⟨((layout.columns : ℝ) - 1) * layout.spacing_x / 2,
        dims.manifold_y_out - layout.spacing_y * 1.5, 0⟩
  ⟨loc, res_h, res_rad⟩

/-- Components of _generate_reservoir_system: the reservoir (lifted to half
height), the submersible pump, the bulkhead, the grid feed pipes, the
optional level sensors, and the probe holder. -/
noncomputable def reservoir_components (cfg : Config) (dims : Dimensions) :
    List Component :=
  let layout := cfg.layout_props
  let pp := cfg.pipe_props
  let info := reservoir_info cfg dims
  let loc := info.loc
  let res_h := info.height
  let res_rad := info.radius
  let bulkhead_loc : Vec3 := ⟨loc.x + res_rad * 0.7, loc.y, loc.z - res_h / 4⟩
  let pipe_z := calculate_pipe_height dims.pot_height pp 0
  [⟨"Pots", "Main_Reservoir", ⟨loc.x, loc.y, res_h / 2⟩⟩,
   ⟨"Pumps", "Main_Pump", ⟨loc.x, loc.y, loc.z - res_h / 2 + 0.1⟩⟩,
   ⟨"Fittings", "Pump_Bulkhead", bulkhead_loc⟩] ++
  (if layout.layout_type = .GRID then
    pipe_components pp.pipe_size "Pipe_Pump_Up"
      (bulkhead_loc + ⟨0.05, 0, 0⟩) ⟨bulkhead_loc.x + 0.05, bulkhead_loc.y, pipe_z⟩ ++
    pipe_components pp.pipe_size "Pipe_Pump_To_System"
      ⟨bulkhead_loc.x + 0.05, bulkhead_loc.y, pipe_z⟩
      ⟨((layout.columns : ℝ) - 1) * layout.spacing_x / 2, dims.manifold_y_in, pipe_z⟩
  else []) ++
  (if cfg.component_props.add_water_level_sensors then
    [⟨"Sensors", "Water_Level_High", ⟨loc.x + res_rad * 0.5, loc.y, loc.z + res_h / 2 - 0.1⟩⟩,
     ⟨"Sensors", "Water_Level_Low", ⟨loc.x + res_rad * 0.5, loc.y, loc.z - res_h / 2 + 0.2⟩⟩]
  else []) ++
  [⟨"Sensors", "Probe_Holder", ⟨loc.x - res_rad + 0.1, loc.y, loc.z + res_h / 2⟩⟩]

/-- Components of _generate_balance_system: the tank (always generated by
execute) and, on the grid layout, the connecting pipe from the outlet
manifold center. -/
noncomputable def balance_components (cfg : Config) (dims : Dimensions) :
    List Component :=
  let layout := cfg.layout_props
  let pp := cfg.pipe_props
  let balance_volume := cfg.pot_volume * 1.5
  let balance_h := BalanceTankMesh.height balance_volume
  let balance_rad := BalanceTankMesh.radius balance_volume
  let balance_loc : Vec3 :=
    if layout.layout_type = .CIRCULAR then ⟨0, 0, 0⟩
    else ⟨((layout.columns : ℝ) - 1) * layout.spacing_x / 2,
          dims.manifold_y_out - layout.spacing_y * 0.75, 0⟩
  [⟨"Pots", "Balance_Tank", ⟨balance_loc.x, balance_loc.y, balance_h / 2⟩⟩] ++
  (if layout.layout_type = .GRID then
    let pipe_z := calculate_pipe_height dims.pot_height pp 0
    pipe_components pp.pipe_size "Pipe_To_Balance"
      ⟨((layout.columns : ℝ) - 1) * layout.spacing_x / 2, dims.manifold_y_out, pipe_z⟩
      (balance_loc + ⟨0, balance_rad, pipe_z⟩)
  else [])

/-- Components of _generate_aeration_system: nothing when
air_stones_per_pot is zero; else the air pump (beside the reservoir when
present) and per pot either one centered stone or a circle of stones at
half the pot radius. -/
noncomputable def aeration_components (cp : ComponentProps) (pots : List PotInfo)
    (res : Option ReservoirInfo) : List Component :=
  if cp.air_stones_per_pot = 0 then []
  else
    let pump_loc : Vec3 :=
      match res with
      | some info =>
          ⟨info.loc.x + info.radius + 0.3, info.loc.y, info.loc.z + info.height / 2⟩
      | none => ⟨0, -2, 0.5⟩
    [⟨"Aeration", "Air_Pump", pump_loc⟩] ++
    pots.flatMap fun pot =>
      if cp.air_stones_per_pot = 1 then
        [⟨"Aeration", "Air_Stone_" ++ pot.name, ⟨pot.x, pot.y, pot.height * 0.15⟩⟩]
      else
        (List.range cp.air_stones_per_pot).map fun (i : ℕ) =>
          let angle := (i : ℝ) * (2 * Real.pi / (cp.air_stones_per_pot : ℝ))
          ⟨"Aeration", "Air_Stone_" ++ pot.name ++ "_" ++ toString i,
            ⟨pot.x + pot.radius * 0.5 * Real.cos angle,
              pot.y + pot.radius * 0.5 * Real.sin angle, pot.height * 0.15⟩⟩

/-- Model of get_total_bounding_box (operators.py 8-29) over the scene
model: each object contributes its origin (mesh extents are not tracked);
none on the empty list as in the source. -/
noncomputable def get_total_bounding_box (objs : List Component) :
    Option (Vec3 × Vec3) :=
  match objs with
  | [] => none
  | o :: rest =>
    some (rest.foldl (fun acc comp =>
        (⟨min acc.1.x comp.loc.x, min acc.1.y comp.loc.y, min acc.1.z comp.loc.z⟩,
         ⟨max acc.2.x comp.loc.x, max acc.2.y comp.loc.y, max acc.2.z comp.loc.z⟩))
      (o.loc, o.loc))

/-- Number of panel columns (operators.py 447): Python int truncation of
the nonnegative width over the default 0.6 panel width, plus one, at least
one. -/
noncomputable def lighting_panels_x (bmin bmax : Vec3) : ℕ :=
  max 1 (⌊(bmax.x - bmin.x) / 0.6⌋ + 1).toNat

/-- Number of panel rows (operators.py 448). -/
noncomputable def lighting_panels_y (bmin bmax : Vec3) : ℕ :=
  max 1 (⌊(bmax.y - bmin.y) / 0.6⌋ + 1).toNat

/-- Panel spacing along x (operators.py 451): width over count when more
than one panel, else zero. -/
noncomputable def lighting_spacing_x (bmin bmax : Vec3) : ℝ :=
  if 1 < lighting_panels_x bmin bmax then
    (bmax.x - bmin.x) / (lighting_panels_x bmin bmax : ℝ)
  else 0

/-- Panel spacing along y (operators.py 452). -/
noncomputable def lighting_spacing_y (bmin bmax : Vec3) : ℝ :=
  if 1 < lighting_panels_y bmin bmax then
    (bmax.y - bmin.y) / (lighting_panels_y bmin bmax : ℝ)
  else 0

/-- Model of _generate_lighting (operators.py 427-477): panels start half a
spacing from the minimum corner, at light_height above the highest point;
panel names count row-major as in the nested loop. -/
noncomputable def generate_lighting (lp : LightingProps) (bmin bmax : Vec3) :
    List Component :=
  if lp.enable_lighting then
    let panels_x := lighting_panels_x bmin bmax
    let panels_y := lighting_panels_y bmin bmax
    let spacing_x := lighting_spacing_x bmin bmax
    let spacing_y := lighting_spacing_y bmin bmax
    let light_z := bmax.z + lp.light_height
    let start_x := bmin.x + spacing_x / 2
    let start_y := bmin.y + spacing_y / 2
    (List.range panels_x).flatMap fun (i : ℕ) =>
      (List.range panels_y).map fun (j : ℕ) =>
        ⟨"Lighting", "LED_Panel_" ++ toString (i * panels_y + j),
          ⟨start_x + (i : ℝ) * spacing_x, start_y + (j : ℝ) * spacing_y, light_z⟩⟩
  else []

/-!
Finalization, from _finalize_system (operators.py 479-536): pipes and
simple fittings are joined into one object linked to the System collection.
-/

/-- Substring test via splitOn: the pattern occurs iff splitting produces
at least two parts. -/
def contains_sub (s pat : String) : Bool := 2 ≤ (s.splitOn pat).length

/-- Objects consumed by the join: everything in Pipes, and the Fittings
whose lowercased name avoids valve, pump, sensor and meter. -/
def joined_in_finalize (comp : Component) : Bool :=
  comp.collection == "Pipes" ||
    (comp.collection == "Fittings" &&
      !(["valve", "pump", "sensor", "meter"].any fun pat =>
          contains_sub (comp.name.map Char.toLower) pat))

/-- Model of _finalize_system: when any object qualifies, the qualifying
objects are replaced by the single joined RDWC_Piping_System object in the
System collection, placed at the first joined object. -/
noncomputable def finalize_system (comps : List Component) : List Component :=
  let rdwc := comps.filter joined_in_finalize
  match rdwc with
  | [] => comps
  | first :: _ =>
    comps.filter (fun comp => !joined_in_finalize comp) ++
      [⟨"System", "RDWC_Piping_System", first.loc⟩]

/-!
The orchestrating operator execute (operators.py 538-630).
-/

/-- Collections whose objects feed the lighting bounding box
(collections[:3] in execute). -/
def bbox_collection_names : List String := ["Pots", "Pipes", "Fittings"]

/-- Main layout dispatch of execute (operators.py 590-600): grid, circular,
or linear as a one-row grid on the dimensions computed from the original
configuration; other layout values generate nothing. -/
noncomputable def main_layout_part (cfg : Config) (dims : Dimensions) :
    List Component × List PotInfo :=
  let layout := cfg.layout_props
  match layout.layout_type with
  | .GRID =>
      (grid_manifold_components cfg.pipe_props cfg.component_props layout dims,
        grid_pot_infos layout dims)
  | .CIRCULAR =>
      (circular_components cfg.pipe_props layout dims,
        circular_pot_infos layout dims)
  | .LINEAR =>
      let layout1 := { layout with rows := 1 }
      (grid_manifold_components cfg.pipe_props cfg.component_props layout1 dims,
        grid_pot_infos layout1 dims)
  | _ => ([], [])

/-- Components of the reservoir system when enable_reservoir is set. -/
noncomputable def reservoir_part (cfg : Config) (dims : Dimensions) : List Component :=
  if cfg.enable_reservoir then reservoir_components cfg dims else []

/-- Reservoir info handed to the aeration generator when the reservoir was
generated. -/
noncomputable def reservoir_opt (cfg : Config) (dims : Dimensions) :
    Option ReservoirInfo :=
  if cfg.enable_reservoir then some (reservoir_info cfg dims) else none

/-- Lighting pass of execute: the bounding box is taken over the objects of
the Pots, Pipes and Fittings collections generated so far. -/
noncomputable def lighting_part (cfg : Config) (preLight : List Component) :
    List Component :=
  match get_total_bounding_box (preLight.filter fun comp =>
      decide (comp.collection ∈ bbox_collection_names)) with
  | some (bmin, bmax) => generate_lighting cfg.lighting_props bmin bmax
  | none => []

/-- All components generated by one run of execute after the clear: the
main layout, the optional reservoir system, the balance tank, aeration,
lighting over the bounding box of pots, pipes and fittings, and the
optional finalization join. -/
noncomputable def generated_components (cfg : Config) : List Component :=
  let dims := compute_dimensions cfg
  let mainPart := main_layout_part cfg dims
  let preLight := mainPart.1 ++ reservoir_part cfg dims ++ balance_components cfg dims ++
    aeration_components cfg.component_props mainPart.2 (reservoir_opt cfg dims)
  let allComps := preLight ++ lighting_part cfg preLight
  if cfg.create_connections then finalize_system allComps else allComps

/-- Model of execute: clear the previous run, then generate from the
configuration alone. -/
noncomputable def execute (cfg : Config) (s : Scene) : Scene :=
  clear_previous s ++ generated_components cfg

/-- Rows field of the layout after the operator body: the LINEAR branch
saves rows, overrides it to 1 for generation, and writes the saved value
back (operators.py 596-600); the other branches leave it alone. -/
def rows_after_run (layout : LayoutProps) : ℕ :=
  match layout.layout_type with
  | .LINEAR =>
      let temp_rows := layout.rows
      let overridden : LayoutProps := { layout with rows := 1 }
      ({ overridden with rows := temp_rows }).rows
  | _ => layout.rows

/-!
Concrete configuration fixtures used to instantiate the theorems below.
All values are within the ranges declared in `src/properties.py`.
-/

/-- Level pipe configuration: 25 mm metric pipe, pipe plane at 15 percent,
slope zero. -/
noncomputable def pipes_level : PipeProps := ⟨25, 15, 0⟩

/-- Component toggles with all extras off. -/
def comps_plain : ComponentProps := ⟨false, false, false, false, 0⟩

/-- Dimension fixture: unit pot height, 25 mm fittings, two-row manifold
offsets at 0.6 m spacing. -/
noncomputable def dims_level : Dimensions :=
  ⟨25, 1, 0.2, 0.15, tee_arm_total_length ((25 : ℝ) / 1000),
    pipe_insertion_depth ((25 : ℝ) / 1000), 1.08, -0.48⟩

/-- Grid layout fixture: two rows, two columns, 0.6 m spacings. -/
noncomputable def grid22 : LayoutProps := ⟨.GRID, 2, 2, 0.6, 0.6, 1.5⟩

/-- Configuration with an unrecognized layout branch (STAGGERED is offered
by the property enum but has no branch in execute), all extras off. -/
noncomputable def cfg_staggered : Config :=
  ⟨⟨.STAGGERED, 2, 2, 0.6, 0.6, 1.5⟩, pipes_level, 25, 100, comps_plain,
    ⟨false, 0.6⟩, false, false, false⟩

/-- Linear layout configuration with two rows stored in the rows field. -/
noncomputable def cfg_linear : Config :=
  ⟨⟨.LINEAR, 2, 1, 0.6, 0.6, 1.5⟩, pipes_level, 25, 100, comps_plain,
    ⟨false, 0.6⟩, false, false, false⟩

/-- Grid configuration with one row and otherwise the fields of
cfg_linear. -/
noncomputable def cfg_grid1 : Config :=
  ⟨⟨.GRID, 1, 1, 0.6, 0.6, 1.5⟩, pipes_level, 25, 100, comps_plain,
    ⟨false, 0.6⟩, false, false, false⟩

/-- Scene fixture holding one solid from a previous run. -/
noncomputable def prior_scene : Scene := [⟨"Pots", "Pot_0_0", ⟨0, 0, 0⟩⟩]

/-!
Theorems.  Basic Vec3 lemmas first, then one theorem per claim with its
witness or counterexample.
-/

@[ext] theorem Vec3.ext_xyz {a b : Vec3} (hx : a.x = b.x) (hy : a.y = b.y)
    (hz : a.z = b.z) : a = b := by
  cases a; cases b; simp_all

@[simp] theorem Vec3.add_def (a b : Vec3) :
    a + b = ⟨a.x + b.x, a.y + b.y, a.z + b.z⟩ := rfl

@[simp] theorem Vec3.sub_def (a b : Vec3) :
    a - b = ⟨a.x - b.x, a.y - b.y, a.z - b.z⟩ := rfl

@[simp] theorem Vec3.smul_def (t : ℝ) (a : Vec3) :
    t • a = ⟨t * a.x, t * a.y, t * a.z⟩ := rfl

/-- Cubing undoes the one-third real power on nonnegative reals. -/
theorem cube_rpow_third (a : ℝ) (ha : 0 ≤ a) : (a ^ ((1 : ℝ) / 3)) ^ (3 : ℕ) = a := by
  rw [← Real.rpow_natCast (a ^ ((1 : ℝ) / 3)) 3, ← Real.rpow_mul ha]
  norm_num

/-- Inverting the pot volume formula is exact: pi r^2 h = v / 1000. -/
theorem pot_volume_exact (v : ℝ) (hv : 0 < v) :
    Real.pi * PotMesh.radius v ^ 2 * PotMesh.height v = v / 1000 := by
  have ha : (0 : ℝ) ≤ v / 1000 / (2.5 * Real.pi) := by
    have := Real.pi_pos
    positivity
  have h3 := cube_rpow_third (v / 1000 / (2.5 * Real.pi)) ha
  have hpi := Real.pi_ne_zero
  unfold PotMesh.height PotMesh.radius
  calc Real.pi * ((v / 1000 / (2.5 * Real.pi)) ^ ((1 : ℝ) / 3)) ^ 2 *
        (2.5 * (v / 1000 / (2.5 * Real.pi)) ^ ((1 : ℝ) / 3))
      = 2.5 * Real.pi * ((v / 1000 / (2.5 * Real.pi)) ^ ((1 : ℝ) / 3)) ^ (3 : ℕ) := by ring
    _ = 2.5 * Real.pi * (v / 1000 / (2.5 * Real.pi)) := by rw [h3]
    _ = v / 1000 := by field_simp; ring

/-- Inverting the reservoir volume formula is exact. -/
theorem reservoir_volume_exact (v : ℝ) (hv : 0 < v) :
    Real.pi * ReservoirMesh.radius v ^ 2 * ReservoirMesh.height v = v / 1000 := by
  have ha : (0 : ℝ) ≤ v / 1000 / (3 * Real.pi) := by
    have := Real.pi_pos
    positivity
  have h3 := cube_rpow_third (v / 1000 / (3 * Real.pi)) ha
  have hpi := Real.pi_ne_zero
  unfold ReservoirMesh.height ReservoirMesh.radius
  calc Real.pi * ((v / 1000 / (3 * Real.pi)) ^ ((1 : ℝ) / 3)) ^ 2 *
        (1.5 * (2 * (v / 1000 / (3 * Real.pi)) ^ ((1 : ℝ) / 3)))
      = 3 * Real.pi * ((v / 1000 / (3 * Real.pi)) ^ ((1 : ℝ) / 3)) ^ (3 : ℕ) := by ring
    _ = 3 * Real.pi * (v / 1000 / (3 * Real.pi)) := by rw [h3]
    _ = v / 1000 := by field_simp; ring

/-- Inverting the balance tank volume formula is exact. -/
theorem balance_volume_exact (v : ℝ) (hv : 0 < v) :
    Real.pi * BalanceTankMesh.radius v ^ 2 * BalanceTankMesh.height v = v / 1000 := by
  have ha : (0 : ℝ) ≤ v / 1000 / (1.5 * Real.pi) := by
    have := Real.pi_pos
    positivity
  have h3 := cube_rpow_third (v / 1000 / (1.5 * Real.pi)) ha
  have hpi := Real.pi_ne_zero
  unfold BalanceTankMesh.height BalanceTankMesh.radius
  calc Real.pi * ((v / 1000 / (1.5 * Real.pi)) ^ ((1 : ℝ) / 3)) ^ 2 *
        (0.75 * (2 * (v / 1000 / (1.5 * Real.pi)) ^ ((1 : ℝ) / 3)))
      = 1.5 * Real.pi * ((v / 1000 / (1.5 * Real.pi)) ^ ((1 : ℝ) / 3)) ^ (3 : ℕ) := by ring
    _ = 1.5 * Real.pi * (v / 1000 / (1.5 * Real.pi)) := by rw [h3]
    _ = v / 1000 := by field_simp; ring

/-- C1: for every vessel class and every volume_liters > 0, the radius and
height computed by the create method satisfy pi r^2 h = volume/1000 within
1e-6 relative error, with pot height = 2.5 radius, reservoir height =
3 radius, balance tank height = 1.5 radius. -/
theorem C1_vessel_volume_formulas (v : ℝ) (hv : 0 < v) :
    PotMesh.height v = 2.5 * PotMesh.radius v ∧
    ReservoirMesh.height v = 3 * ReservoirMesh.radius v ∧
    BalanceTankMesh.height v = 1.5 * BalanceTankMesh.radius v ∧
    |Real.pi * PotMesh.radius v ^ 2 * PotMesh.height v - v / 1000| ≤
      (1 / 1000000) * (v / 1000) ∧
    |Real.pi * ReservoirMesh.radius v ^ 2 * ReservoirMesh.height v - v / 1000| ≤
      (1 / 1000000) * (v / 1000) ∧
    |Real.pi * BalanceTankMesh.radius v ^ 2 * BalanceTankMesh.height v - v / 1000| ≤
      (1 / 1000000) * (v / 1000) := by
  have hb : (0 : ℝ) ≤ (1 / 1000000) * (v / 1000) := by positivity
  refine ⟨rfl, by unfold ReservoirMesh.height; ring, by unfold BalanceTankMesh.height; ring,
    ?_, ?_, ?_⟩
  · rw [pot_volume_exact v hv]; simpa using hb
  · rw [reservoir_volume_exact v hv]; simpa using hb
  · rw [balance_volume_exact v hv]; simpa using hb

/-- Witness for C1 at the default 25 liter pot volume. -/
theorem C1_vessel_volume_formulas_witness :
    (0 : ℝ) < 25 ∧
    |Real.pi * PotMesh.radius 25 ^ 2 * PotMesh.height 25 - 25 / 1000| ≤
      (1 / 1000000) * (25 / 1000) := by
  have h := C1_vessel_volume_formulas 25 (by norm_num)
  exact ⟨by norm_num, h.2.2.2.1⟩

/-- C5: the pipe factory returns none exactly when the endpoint distance is
below the 0.0001 threshold; otherwise it returns one cylinder whose length
equals the endpoint distance and whose center is the midpoint of start and
end. -/
theorem C5_pipe_factory_degenerate (pipe_size : ℝ) (name : String) (s e : Vec3) :
    (PipeMesh.create pipe_size name s e = none ↔ (e - s).length < 0.0001) ∧
    (∀ p : PipeObj, PipeMesh.create pipe_size name s e = some p →
      p.depth = (e - s).length ∧ p.loc = (1 / 2 : ℝ) • (s + e)) := by
  unfold PipeMesh.create
  by_cases h : (e - s).length < 0.0001
  · simp only [h, if_pos]
    exact ⟨by simp [h], fun p hp => by simp at hp⟩
  · simp only [h, if_neg, not_false_iff]
    refine ⟨by simp [h], fun p hp => ?_⟩
    have hp2 : p = ⟨name, s + (1 / 2 : ℝ) • (e - s), pipe_size / 1000 / 2, (e - s).length⟩ := by
      simpa using hp.symm
    subst hp2
    refine ⟨rfl, ?_⟩
    ext <;> simp <;> ring

/-- Witness for C5 with endpoints a unit apart: a pipe is produced, with
the endpoint distance equal to one. -/
theorem C5_pipe_factory_degenerate_witness :
    ((⟨1, 0, 0⟩ : Vec3) - ⟨0, 0, 0⟩).length = 1 ∧
    PipeMesh.create 25 "Pipe" ⟨0, 0, 0⟩ ⟨1, 0, 0⟩ ≠ none := by
  have h := C5_pipe_factory_degenerate 25 "Pipe" ⟨0, 0, 0⟩ ⟨1, 0, 0⟩
  have hlen : ((⟨1, 0, 0⟩ : Vec3) - ⟨0, 0, 0⟩).length = 1 := by
    simp [Vec3.length, Real.sqrt_one]
  refine ⟨hlen, fun hn => ?_⟩
  have := h.1.mp hn
  rw [hlen] at this
  norm_num at this

/-- C6: a CIRCULAR layout yields exactly rows times columns positions, the
i-th at radius times (cos, sin) of i times 2 pi over the count, each at
distance circle_radius from the origin. -/
theorem C6_circular_layout (layout : LayoutProps)
    (hl : layout.layout_type = .CIRCULAR) (hR : 0 ≤ layout.circle_radius) :
    (calculate_pot_positions layout).length = layout.rows * layout.columns ∧
    ∀ i : ℕ, i < layout.rows * layout.columns →
      (calculate_pot_positions layout)[i]? =
        some ⟨layout.circle_radius *
                Real.cos ((i : ℝ) * (2 * Real.pi / (layout.rows * layout.columns : ℕ))),
              layout.circle_radius *
                Real.sin ((i : ℝ) * (2 * Real.pi / (layout.rows * layout.columns : ℕ))), 0⟩ ∧
      Vec3.length
        ⟨layout.circle_radius *
            Real.cos ((i : ℝ) * (2 * Real.pi / (layout.rows * layout.columns : ℕ))),
          layout.circle_radius *
            Real.sin ((i : ℝ) * (2 * Real.pi / (layout.rows * layout.columns : ℕ))), 0⟩ =
        layout.circle_radius := by
  have hbranch : calculate_pot_positions layout =
      (List.range (layout.rows * layout.columns)).map fun (i : ℕ) =>
        ⟨layout.circle_radius *
            Real.cos ((i : ℝ) * (2 * Real.pi / (layout.rows * layout.columns : ℕ))),
          layout.circle_radius *
            Real.sin ((i : ℝ) * (2 * Real.pi / (layout.rows * layout.columns : ℕ))), 0⟩ := by
    unfold calculate_pot_positions
    rw [hl]
  rw [hbranch]
  constructor
  · rw [List.length_map, List.length_range]
  · intro i hi
    set R := layout.circle_radius
    set θ := (i : ℝ) * (2 * Real.pi / (layout.rows * layout.columns : ℕ))
    constructor
    · rw [List.getElem?_map, List.getElem?_range hi]
      rfl
    · have hsum : (R * Real.cos θ) ^ 2 + (R * Real.sin θ) ^ 2 + (0 : ℝ) ^ 2 = R ^ 2 := by
        have hs := Real.sin_sq_add_cos_sq θ
        calc (R * Real.cos θ) ^ 2 + (R * Real.sin θ) ^ 2 + (0 : ℝ) ^ 2
            = R ^ 2 * (Real.sin θ ^ 2 + Real.cos θ ^ 2) := by ring
          _ = R ^ 2 := by rw [hs]; ring
      show Real.sqrt _ = R
      rw [hsum, Real.sqrt_sq hR]

/-- Witness for C6 at the configuration of the spec: one row of six pots on
a circle of radius 1.5. -/
theorem C6_circular_layout_witness :
    (calculate_pot_positions ⟨.CIRCULAR, 1, 6, 0.6, 0.6, 1.5⟩).length = 6 ∧
    Vec3.length
      ⟨(1.5 : ℝ) * Real.cos ((2 : ℕ) * (2 * Real.pi / ((1 * 6 : ℕ) : ℝ))),
        (1.5 : ℝ) * Real.sin ((2 : ℕ) * (2 * Real.pi / ((1 * 6 : ℕ) : ℝ))), 0⟩ = 1.5 := by
  have h := C6_circular_layout ⟨.CIRCULAR, 1, 6, 0.6, 0.6, 1.5⟩ rfl (by norm_num)
  exact ⟨h.1, (h.2 2 (by norm_num)).2⟩

/-- Tangent is nonzero on nonzero angles inside the open interval around
zero bounded by pi over 2. -/
theorem tan_ne_zero_of_small (θ : ℝ) (h0 : θ ≠ 0) (h2 : |θ| < Real.pi / 2) :
    Real.tan θ ≠ 0 := by
  rcases lt_or_gt_of_ne h0 with hneg | hpos
  · have h2a : -θ < Real.pi / 2 := by
      have := abs_lt.mp h2
      linarith [this.1]
    have : 0 < Real.tan (-θ) :=
      Real.tan_pos_of_pos_of_lt_pi_div_two (by linarith) h2a
    rw [Real.tan_neg] at this
    linarith
  · have h2a : θ < Real.pi / 2 := lt_of_abs_lt h2
    have : 0 < Real.tan θ := Real.tan_pos_of_pos_of_lt_pi_div_two hpos h2a
    linarith

/-- C9: the z coordinate of the column c tees equals
pot_height * ratio / 100 + (c * spacing_x - (columns - 1) * spacing_x / 2)
* tan(radians slope), and for a nonzero slope within the property range the
manifold lines are not level: distinct columns sit at distinct heights. -/
theorem C9_pipe_slope (layout : LayoutProps) (pp : PipeProps) (pot_height : ℝ)
    (hsx : 0 < layout.spacing_x) (hs5 : |pp.pipe_slope| ≤ 5) :
    (∀ c : ℕ, grid_pipe_z layout pp pot_height c =
      pot_height * (pp.pipe_height_ratio / 100) +
        ((c : ℝ) * layout.spacing_x - ((layout.columns : ℝ) - 1) * layout.spacing_x / 2) *
          Real.tan (radians pp.pipe_slope)) ∧
    (pp.pipe_slope ≠ 0 → ∀ c c' : ℕ, c ≠ c' →
      grid_pipe_z layout pp pot_height c ≠ grid_pipe_z layout pp pot_height c') := by
  have hformula : ∀ c : ℕ, grid_pipe_z layout pp pot_height c =
      pot_height * (pp.pipe_height_ratio / 100) +
        ((c : ℝ) * layout.spacing_x - ((layout.columns : ℝ) - 1) * layout.spacing_x / 2) *
          Real.tan (radians pp.pipe_slope) := by
    intro c
    unfold grid_pipe_z calculate_pipe_height grid_distance_from_center
    by_cases hs : pp.pipe_slope ≠ 0
    · simp [hs]
    · push_neg at hs
      simp [hs, radians, Real.tan_zero]
  refine ⟨hformula, fun hs c c' hne heq => ?_⟩
  have htan : Real.tan (radians pp.pipe_slope) ≠ 0 := by
    apply tan_ne_zero_of_small
    · simp only [radians]
      intro habs
      rcases mul_eq_zero.mp habs with h | h
      · exact hs h
      · have := Real.pi_ne_zero
        rw [div_eq_zero_iff] at h
        rcases h with h | h
        · exact this h
        · norm_num at h
    · have hpi := Real.pi_pos
      have : |radians pp.pipe_slope| = |pp.pipe_slope| * (Real.pi / 180) := by
        rw [radians, abs_mul, abs_of_pos (by positivity : (0 : ℝ) < Real.pi / 180)]
      rw [this]
      calc |pp.pipe_slope| * (Real.pi / 180) ≤ 5 * (Real.pi / 180) := by
            apply mul_le_mul_of_nonneg_right hs5
            positivity
        _ < Real.pi / 2 := by nlinarith
  rw [hformula c, hformula c'] at heq
  have hcast : ((c : ℝ) - (c' : ℝ)) * layout.spacing_x *
      Real.tan (radians pp.pipe_slope) = 0 := by linarith [heq]
  rcases mul_eq_zero.mp hcast with h | h
  · rcases mul_eq_zero.mp h with h | h
    · have : (c : ℝ) = (c' : ℝ) := by linarith
      exact hne (Nat.cast_injective this)
    · exact absurd h (ne_of_gt hsx)
  · exact htan h

/-- Witness for C9: with the default slope of one degree and 0.6 meter
spacing, columns 0 and 1 sit at different heights. -/
theorem C9_pipe_slope_witness :
    grid_pipe_z ⟨.GRID, 2, 2, 0.6, 0.6, 1.5⟩ ⟨25, 15, 1⟩ 1 0 ≠
      grid_pipe_z ⟨.GRID, 2, 2, 0.6, 0.6, 1.5⟩ ⟨25, 15, 1⟩ 1 1 := by
  have h := C9_pipe_slope ⟨.GRID, 2, 2, 0.6, 0.6, 1.5⟩ ⟨25, 15, 1⟩ 1
    (by norm_num) (by norm_num)
  exact h.2 (by norm_num) 0 1 (by norm_num)

/-- Length of a vector along the x axis is the absolute value of its x
component. -/
theorem Vec3.length_xdiff (x : ℝ) : Vec3.length ⟨x, 0, 0⟩ = |x| := by
  unfold Vec3.length
  rw [show x ^ 2 + (0 : ℝ) ^ 2 + (0 : ℝ) ^ 2 = x ^ 2 by ring, Real.sqrt_sq_eq_abs]

/-- With a zero slope the pipe plane is level: every column gets the base
height times the ratio. -/
theorem grid_pipe_z_slope_zero (layout : LayoutProps) (pp : PipeProps)
    (h : pp.pipe_slope = 0) (ph : ℝ) (c : ℕ) :
    grid_pipe_z layout pp ph c = ph * (pp.pipe_height_ratio / 100) := by
  unfold grid_pipe_z calculate_pipe_height
  simp [h]

/-- C3: when the boolean solver fails, the base mesh and its modifier stack
are exactly as immediately before the call (the failed modifier has been
removed), and the cutter is removed unless keep_cutter — on failure and on
success alike. -/
theorem C3_boolean_failure (Mesh : Type) (solver : Mesh → Mesh → Option Mesh)
    (base : Mesh) (mods : List String) (cutter : Mesh) (keep_cutter : Bool) :
    (solver base cutter = none →
      (apply_boolean solver base mods cutter keep_cutter).base = base ∧
      (apply_boolean solver base mods cutter keep_cutter).base_modifiers = mods) ∧
    (apply_boolean solver base mods cutter keep_cutter).cutter_removed = !keep_cutter := by
  constructor
  · intro hfail
    unfold apply_boolean
    rw [hfail]
    exact ⟨rfl, List.dropLast_concat⟩
  · cases hsolve : solver base cutter <;> simp [apply_boolean, hsolve]

/-- Witness for C3: a solver that always fails on nat meshes leaves the
base and modifier stack unchanged and still removes the cutter. -/
theorem C3_boolean_failure_witness :
    (apply_boolean (fun _ _ => (none : Option ℕ)) 7 ["Solidify"] 3 false).base = 7 ∧
    (apply_boolean (fun _ _ => (none : Option ℕ)) 7 ["Solidify"] 3 false).base_modifiers =
      ["Solidify"] ∧
    (apply_boolean (fun _ _ => (none : Option ℕ)) 7 ["Solidify"] 3 false).cutter_removed =
      true := by
  have h := C3_boolean_failure ℕ (fun _ _ => none) 7 ["Solidify"] 3 false
  exact ⟨(h.1 rfl).1, (h.1 rfl).2, h.2⟩

/-- C2 counterexample: at 25 mm pipe size and 0.6 m column spacing with a
level manifold, adjacent tee centers are 0.6 apart and the connection
offset is 0.035, but the generated manifold pipe has length 0.542 rather
than 0.6 - 0.035 - 0.035 = 0.53, and its start point sits 0.029 from the
previous tee center rather than 0.035: the insertion depth is subtracted
at both ends. -/
theorem C2_manifold_pipe_counterexample :
    tee_arm_total_length ((25 : ℝ) / 1000) = 0.035 ∧
    (tee_center grid22 pipes_level dims_level (-0.48) 1 -
      tee_center grid22 pipes_level dims_level (-0.48) 0).length = 0.6 ∧
    (PipeMesh.create 25 "Manifold_Pipe_In_0"
        (manifold_pipe_start grid22 pipes_level dims_level (-0.48) 1)
        (manifold_pipe_end grid22 pipes_level dims_level (-0.48) 1)).map PipeObj.depth =
      some 0.542 ∧
    (0.542 : ℝ) ≠ 0.6 - 0.035 - 0.035 ∧
    (manifold_pipe_start grid22 pipes_level dims_level (-0.48) 1 -
      tee_center grid22 pipes_level dims_level (-0.48) 0).length = 0.029 ∧
    (0.029 : ℝ) ≠ 0.035 := by
  have hslope : pipes_level.pipe_slope = 0 := rfl
  have hz : ∀ k : ℕ, grid_pipe_z grid22 pipes_level dims_level.pot_height k =
      dims_level.pot_height * (pipes_level.pipe_height_ratio / 100) := fun k =>
    grid_pipe_z_slope_zero grid22 pipes_level hslope dims_level.pot_height k
  have harm : dims_level.tee_arm_total = 0.035 := by
    show tee_arm_total_length ((25 : ℝ) / 1000) = 0.035
    unfold tee_arm_total_length
    norm_num
  have hins : dims_level.insertion = 0.006 := by
    show pipe_insertion_depth ((25 : ℝ) / 1000) = 0.006
    unfold pipe_insertion_depth
    norm_num
  have hteediff : tee_center grid22 pipes_level dims_level (-0.48) 1 -
      tee_center grid22 pipes_level dims_level (-0.48) 0 = ⟨0.6, 0, 0⟩ := by
    unfold tee_center
    refine Vec3.ext_xyz ?_ ?_ ?_ <;> simp only [hz] <;> simp [grid22] <;> norm_num
  have hpipediff : manifold_pipe_end grid22 pipes_level dims_level (-0.48) 1 -
      manifold_pipe_start grid22 pipes_level dims_level (-0.48) 1 = ⟨0.542, 0, 0⟩ := by
    unfold manifold_pipe_end manifold_pipe_start
    refine Vec3.ext_xyz ?_ ?_ ?_ <;> simp only [hz] <;> simp [harm, hins, grid22] <;> norm_num
  have hstartdiff : manifold_pipe_start grid22 pipes_level dims_level (-0.48) 1 -
      tee_center grid22 pipes_level dims_level (-0.48) 0 = ⟨0.029, 0, 0⟩ := by
    unfold manifold_pipe_start tee_center
    refine Vec3.ext_xyz ?_ ?_ ?_ <;> simp only [hz] <;> simp [harm, hins, grid22] <;> norm_num
  have hlen : (manifold_pipe_end grid22 pipes_level dims_level (-0.48) 1 -
      manifold_pipe_start grid22 pipes_level dims_level (-0.48) 1).length = 0.542 := by
    rw [hpipediff, Vec3.length_xdiff]
    norm_num
  refine ⟨by unfold tee_arm_total_length; norm_num, ?_, ?_, by norm_num, ?_, by norm_num⟩
  · rw [hteediff, Vec3.length_xdiff]
    norm_num
  · have hnot : ¬ ((manifold_pipe_end grid22 pipes_level dims_level (-0.48) 1 -
        manifold_pipe_start grid22 pipes_level dims_level (-0.48) 1).length < 0.0001) := by
      rw [hlen]; norm_num
    simp only [PipeMesh.create]
    rw [if_neg hnot]
    show some ((manifold_pipe_end grid22 pipes_level dims_level (-0.48) 1 -
      manifold_pipe_start grid22 pipes_level dims_level (-0.48) 1).length) = some 0.542
    rw [hlen]
  · rw [hstartdiff, Vec3.length_xdiff]
    norm_num

/-- C2 amended: between adjacent tee fittings (unions off) the generator
emits exactly one connecting pipe per manifold line; each pipe endpoint
sits connection offset minus insertion depth from its tee center along the
socket axis, not the full connection offset, and on a level manifold the
tee centers are spacing_x apart while the generated pipe length is that
distance minus the two connection offsets plus twice the insertion
depth. -/
theorem C2_manifold_pipe_amended (layout : LayoutProps) (pp : PipeProps)
    (cp : ComponentProps) (dims : Dimensions) (nm : String) (my : ℝ) (c : ℕ)
    (hc : 1 ≤ c) (hslope : pp.pipe_slope = 0)
    (harm : dims.tee_arm_total = tee_arm_total_length (pp.pipe_size / 1000))
    (hins : dims.insertion = pipe_insertion_depth (pp.pipe_size / 1000))
    (hd0 : 0 < pp.pipe_size) (hd50 : pp.pipe_size ≤ 50)
    (hsx : 0.2 ≤ layout.spacing_x) (hu : cp.use_unions = false) :
    (tee_center layout pp dims my c - tee_center layout pp dims my (c - 1)).length =
      layout.spacing_x ∧
    (PipeMesh.create pp.pipe_size nm (manifold_pipe_start layout pp dims my c)
        (manifold_pipe_end layout pp dims my c)).map PipeObj.depth =
      some (layout.spacing_x - 2 * dims.tee_arm_total + 2 * dims.insertion) ∧
    (manifold_pipe_start layout pp dims my c -
      tee_center layout pp dims my (c - 1)).length =
      dims.tee_arm_total - dims.insertion ∧
    (tee_center layout pp dims my c - manifold_pipe_end layout pp dims my c).length =
      dims.tee_arm_total - dims.insertion ∧
    (manifold_segment_components pp cp layout dims c).map Component.name =
      ["Manifold_Pipe_In_" ++ toString (c - 1),
        "Manifold_Pipe_Out_" ++ toString (c - 1)] := by
  have hzz : ∀ k : ℕ, grid_pipe_z layout pp dims.pot_height k =
      dims.pot_height * (pp.pipe_height_ratio / 100) := fun k =>
    grid_pipe_z_slope_zero layout pp hslope dims.pot_height k
  have hcast : ((c - 1 : ℕ) : ℝ) = (c : ℝ) - 1 := by
    rw [Nat.cast_sub hc]
    norm_num
  have hai : dims.tee_arm_total - dims.insertion = 1.16 * (pp.pipe_size / 1000) := by
    rw [harm, hins]
    unfold tee_arm_total_length pipe_insertion_depth
    ring
  have haipos : 0 ≤ dims.tee_arm_total - dims.insertion := by
    rw [hai]
    nlinarith
  have hLval : layout.spacing_x - 2 * dims.tee_arm_total + 2 * dims.insertion =
      layout.spacing_x - 2.32 * (pp.pipe_size / 1000) := by
    rw [harm, hins]
    unfold tee_arm_total_length pipe_insertion_depth
    ring
  have hLpos : 0.084 ≤ layout.spacing_x - 2 * dims.tee_arm_total + 2 * dims.insertion := by
    rw [hLval]
    nlinarith
  have hteediff : ∀ my2 : ℝ, tee_center layout pp dims my2 c -
      tee_center layout pp dims my2 (c - 1) = ⟨layout.spacing_x, 0, 0⟩ := by
    intro my2
    unfold tee_center
    refine Vec3.ext_xyz ?_ ?_ ?_
    · show (c : ℝ) * layout.spacing_x - ((c - 1 : ℕ) : ℝ) * layout.spacing_x =
        layout.spacing_x
      rw [hcast]
      ring
    · show my2 - my2 = 0
      ring
    · show grid_pipe_z layout pp dims.pot_height c -
        grid_pipe_z layout pp dims.pot_height (c - 1) = 0
      rw [hzz c, hzz (c - 1)]
      ring
  have hstartdiff : ∀ my2 : ℝ, manifold_pipe_start layout pp dims my2 c -
      tee_center layout pp dims my2 (c - 1) =
      ⟨dims.tee_arm_total - dims.insertion, 0, 0⟩ := by
    intro my2
    unfold manifold_pipe_start tee_center
    refine Vec3.ext_xyz ?_ ?_ ?_
    · show ((c : ℝ) - 1) * layout.spacing_x + dims.tee_arm_total - dims.insertion -
        ((c - 1 : ℕ) : ℝ) * layout.spacing_x = dims.tee_arm_total - dims.insertion
      rw [hcast]
      ring
    · show my2 - my2 = 0
      ring
    · show grid_pipe_z layout pp dims.pot_height (c - 1) -
        grid_pipe_z layout pp dims.pot_height (c - 1) = 0
      ring
  have henddiff : ∀ my2 : ℝ, tee_center layout pp dims my2 c -
      manifold_pipe_end layout pp dims my2 c =
      ⟨dims.tee_arm_total - dims.insertion, 0, 0⟩ := by
    intro my2
    unfold manifold_pipe_end tee_center
    refine Vec3.ext_xyz ?_ ?_ ?_
    · show (c : ℝ) * layout.spacing_x -
        ((c : ℝ) * layout.spacing_x - dims.tee_arm_total + dims.insertion) =
        dims.tee_arm_total - dims.insertion
      ring
    · show my2 - my2 = 0
      ring
    · show grid_pipe_z layout pp dims.pot_height c -
        grid_pipe_z layout pp dims.pot_height c = 0
      ring
  have hpdiff : ∀ my2 : ℝ, manifold_pipe_end layout pp dims my2 c -
      manifold_pipe_start layout pp dims my2 c =
      ⟨layout.spacing_x - 2 * dims.tee_arm_total + 2 * dims.insertion, 0, 0⟩ := by
    intro my2
    unfold manifold_pipe_end manifold_pipe_start
    refine Vec3.ext_xyz ?_ ?_ ?_
    · show (c : ℝ) * layout.spacing_x - dims.tee_arm_total + dims.insertion -
        (((c : ℝ) - 1) * layout.spacing_x + dims.tee_arm_total - dims.insertion) =
        layout.spacing_x - 2 * dims.tee_arm_total + 2 * dims.insertion
      ring
    · show my2 - my2 = 0
      ring
    · show grid_pipe_z layout pp dims.pot_height c -
        grid_pipe_z layout pp dims.pot_height (c - 1) = 0
      rw [hzz c, hzz (c - 1)]
      ring
  have hlen : ∀ my2 : ℝ, (manifold_pipe_end layout pp dims my2 c -
      manifold_pipe_start layout pp dims my2 c).length =
      layout.spacing_x - 2 * dims.tee_arm_total + 2 * dims.insertion := by
    intro my2
    rw [hpdiff my2, Vec3.length_xdiff, abs_of_nonneg (by linarith)]
  have hcreate : ∀ (nm2 : String) (my2 : ℝ),
      PipeMesh.create pp.pipe_size nm2 (manifold_pipe_start layout pp dims my2 c)
        (manifold_pipe_end layout pp dims my2 c) =
      some ⟨nm2, manifold_pipe_start layout pp dims my2 c +
          (1 / 2 : ℝ) • (manifold_pipe_end layout pp dims my2 c -
            manifold_pipe_start layout pp dims my2 c),
        pp.pipe_size / 1000 / 2,
        (manifold_pipe_end layout pp dims my2 c -
          manifold_pipe_start layout pp dims my2 c).length⟩ := by
    intro nm2 my2
    simp only [PipeMesh.create]
    rw [if_neg (by rw [hlen my2]; linarith)]
  have hname : ∀ (nm2 : String) (my2 : ℝ),
      (pipe_components pp.pipe_size nm2 (manifold_pipe_start layout pp dims my2 c)
        (manifold_pipe_end layout pp dims my2 c)).map Component.name = [nm2] := by
    intro nm2 my2
    unfold pipe_components
    rw [hcreate nm2 my2]
    rfl
  refine ⟨?_, ?_, ?_, ?_, ?_⟩
  · rw [hteediff my, Vec3.length_xdiff, abs_of_nonneg (by linarith)]
  · rw [hcreate nm my]
    show some ((manifold_pipe_end layout pp dims my c -
      manifold_pipe_start layout pp dims my c).length) = _
    rw [hlen my]
  · rw [hstartdiff my, Vec3.length_xdiff, abs_of_nonneg haipos]
  · rw [henddiff my, Vec3.length_xdiff, abs_of_nonneg haipos]
  · unfold manifold_segment_components
    rw [if_neg (by rw [hu]; exact Bool.false_ne_true)]
    rw [List.map_append, hname, hname]
    rfl

/-- Witness for C2 at 25 mm pipe, 0.6 m spacing, level manifold, unions
off: the segment between columns 0 and 1 holds exactly one inlet and one
outlet manifold pipe. -/
theorem C2_manifold_pipe_amended_witness :
    (manifold_segment_components pipes_level comps_plain grid22 dims_level 1).map
      Component.name = ["Manifold_Pipe_In_0", "Manifold_Pipe_Out_0"] := by
  have h := C2_manifold_pipe_amended grid22 pipes_level comps_plain dims_level
    "Manifold_Pipe_In_0" (-0.48) 1 (by norm_num) rfl rfl rfl
    (by show (0 : ℝ) < 25; norm_num) (by show (25 : ℝ) ≤ 50; norm_num)
    (by show (0.2 : ℝ) ≤ 0.6; norm_num) rfl
  exact h.2.2.2.2

/-- Length of a rectangular double loop built from ranges. -/
theorem length_flatMap_range_map {β : Type} (n m : ℕ) (f : ℕ → ℕ → β) :
    ((List.range n).flatMap fun i => (List.range m).map (f i)).length = n * m := by
  rw [List.flatMap_def, List.length_flatten, List.map_map]
  have h1 : (List.length ∘ fun i => (List.range m).map (f i)) = fun _ => m := by
    funext i
    simp
  rw [h1, List.map_const', List.length_range, List.sum_const_nat]

/-- Panel count of the lighting pass: one panel per grid cell. -/
theorem generate_lighting_length (lp : LightingProps) (bmin bmax : Vec3)
    (he : lp.enable_lighting = true) :
    (generate_lighting lp bmin bmax).length =
      lighting_panels_x bmin bmax * lighting_panels_y bmin bmax := by
  unfold generate_lighting
  rw [if_pos he]
  exact length_flatMap_range_map _ _ _

/-- Placement of the (i, j) panel of the lighting pass. -/
theorem generate_lighting_mem (lp : LightingProps) (bmin bmax : Vec3)
    (he : lp.enable_lighting = true) (i j : ℕ)
    (hi : i < lighting_panels_x bmin bmax) (hj : j < lighting_panels_y bmin bmax) :
    (⟨"Lighting", "LED_Panel_" ++ toString (i * lighting_panels_y bmin bmax + j),
      ⟨bmin.x + lighting_spacing_x bmin bmax / 2 + (i : ℝ) * lighting_spacing_x bmin bmax,
        bmin.y + lighting_spacing_y bmin bmax / 2 + (j : ℝ) * lighting_spacing_y bmin bmax,
        bmax.z + lp.light_height⟩⟩ : Component) ∈ generate_lighting lp bmin bmax := by
  unfold generate_lighting
  rw [if_pos he]
  exact List.mem_flatMap.mpr ⟨i, List.mem_range.mpr hi,
    List.mem_map.mpr ⟨j, List.mem_range.mpr hj, rfl⟩⟩

/-- C8 amended: the number of LED panels is max(1, floor(W/0.6)+1) times
max(1, floor(D/0.6)+1) — which agrees with ceil(W/0.6) times ceil(D/0.6)
only when the ratios are not integral — the panels sit at even spacings
starting half a spacing from the minimum corner, all at light_height above
the highest point, and when an axis holds at least two panels the row is
centered over the footprint. -/
theorem C8_lighting_amended (lp : LightingProps) (bmin bmax : Vec3)
    (he : lp.enable_lighting = true) :
    (generate_lighting lp bmin bmax).length =
      lighting_panels_x bmin bmax * lighting_panels_y bmin bmax ∧
    (∀ comp ∈ generate_lighting lp bmin bmax,
      comp.loc.z = bmax.z + lp.light_height) ∧
    (∀ i j : ℕ, i < lighting_panels_x bmin bmax → j < lighting_panels_y bmin bmax →
      (⟨"Lighting", "LED_Panel_" ++ toString (i * lighting_panels_y bmin bmax + j),
        ⟨bmin.x + lighting_spacing_x bmin bmax / 2 +
            (i : ℝ) * lighting_spacing_x bmin bmax,
          bmin.y + lighting_spacing_y bmin bmax / 2 +
            (j : ℝ) * lighting_spacing_y bmin bmax,
          bmax.z + lp.light_height⟩⟩ : Component) ∈ generate_lighting lp bmin bmax) ∧
    (1 < lighting_panels_x bmin bmax →
      bmin.x + lighting_spacing_x bmin bmax / 2 +
        (bmin.x + lighting_spacing_x bmin bmax / 2 +
          ((lighting_panels_x bmin bmax : ℝ) - 1) * lighting_spacing_x bmin bmax) =
      bmin.x + bmax.x) := by
  refine ⟨generate_lighting_length lp bmin bmax he, ?_,
    fun i j hi hj => generate_lighting_mem lp bmin bmax he i j hi hj, ?_⟩
  · intro comp hmem
    unfold generate_lighting at hmem
    rw [if_pos he] at hmem
    rcases List.mem_flatMap.mp hmem with ⟨i, _, hin⟩
    rcases List.mem_map.mp hin with ⟨j, _, hcomp⟩
    rw [← hcomp]
  · intro hnx
    unfold lighting_spacing_x
    rw [if_pos hnx]
    have hne : ((lighting_panels_x bmin bmax : ℕ) : ℝ) ≠ 0 :=
      Nat.cast_ne_zero.mpr (by omega)
    field_simp
    ring

/-- C8 counterexample: a footprint of exactly 0.6 by 0.6 meters receives 4
panels from the code, while ceil(W/0.6) times ciel-style counting would
give exactly 1. -/
theorem C8_lighting_counterexample :
    (generate_lighting ⟨true, 0.6⟩ ⟨0, 0, 0⟩ ⟨0.6, 0.6, 0⟩).length = 4 ∧
    (⌈((0.6 : ℝ) - 0) / 0.6⌉ * ⌈((0.6 : ℝ) - 0) / 0.6⌉ : ℤ) = 1 ∧
    ((4 : ℤ) ≠ 1) := by
  have hdiv : ((0.6 : ℝ) - 0) / 0.6 = 1 := by norm_num
  have hfloor : ⌊((0.6 : ℝ) - 0) / 0.6⌋ = 1 := by rw [hdiv]; exact Int.floor_one
  have hx : lighting_panels_x ⟨0, 0, 0⟩ ⟨0.6, 0.6, 0⟩ = 2 := by
    unfold lighting_panels_x
    show max 1 (⌊((0.6 : ℝ) - 0) / 0.6⌋ + 1).toNat = 2
    rw [hfloor]
    decide
  have hy : lighting_panels_y ⟨0, 0, 0⟩ ⟨0.6, 0.6, 0⟩ = 2 := by
    unfold lighting_panels_y
    show max 1 (⌊((0.6 : ℝ) - 0) / 0.6⌋ + 1).toNat = 2
    rw [hfloor]
    decide
  refine ⟨?_, ?_, by norm_num⟩
  · rw [generate_lighting_length ⟨true, 0.6⟩ ⟨0, 0, 0⟩ ⟨0.6, 0.6, 0⟩ rfl, hx, hy]
  · rw [hdiv, Int.ceil_one]
    norm_num

/-- Witness for C8 on a 1.5 by 0.3 meter footprint: three panel columns and
one panel row. -/
theorem C8_lighting_amended_witness :
    (generate_lighting ⟨true, 0.6⟩ ⟨0, 0, 0⟩ ⟨1.5, 0.3, 0⟩).length =
      lighting_panels_x ⟨0, 0, 0⟩ ⟨1.5, 0.3, 0⟩ *
        lighting_panels_y ⟨0, 0, 0⟩ ⟨1.5, 0.3, 0⟩ ∧
    lighting_panels_x ⟨0, 0, 0⟩ ⟨1.5, 0.3, 0⟩ = 3 ∧
    lighting_panels_y ⟨0, 0, 0⟩ ⟨1.5, 0.3, 0⟩ = 1 := by
  have h := C8_lighting_amended ⟨true, 0.6⟩ ⟨0, 0, 0⟩ ⟨1.5, 0.3, 0⟩ rfl
  refine ⟨h.1, ?_, ?_⟩
  · unfold lighting_panels_x
    show max 1 (⌊((1.5 : ℝ) - 0) / 0.6⌋ + 1).toNat = 3
    have hdiv : ((1.5 : ℝ) - 0) / 0.6 = 2.5 := by norm_num
    have hfloor : ⌊((1.5 : ℝ) - 0) / 0.6⌋ = 2 := by
      rw [hdiv, Int.floor_eq_iff] <;> norm_num
    rw [hfloor]
    decide
  · unfold lighting_panels_y
    show max 1 (⌊((0.3 : ℝ) - 0) / 0.6⌋ + 1).toNat = 1
    have hdiv : ((0.3 : ℝ) - 0) / 0.6 = 0.5 := by norm_num
    have hfloor : ⌊((0.3 : ℝ) - 0) / 0.6⌋ = 0 := by
      rw [hdiv, Int.floor_eq_iff] <;> norm_num
    rw [hfloor]
    decide

/-- Components kept by the finalize join stay in the scene. -/
theorem mem_finalize_of_not_joined {comp : Component} {comps : List Component}
    (hm : comp ∈ comps) (hj : joined_in_finalize comp = false) :
    comp ∈ finalize_system comps := by
  unfold finalize_system
  rcases hf : comps.filter joined_in_finalize with _ | ⟨first, rest⟩
  · exact hm
  · exact List.mem_append_left _ (List.mem_filter.mpr ⟨hm, by simp [hj]⟩)

/-- C4 amended: for an unrecognized layout_type the run does not abort and
does not preserve prior state: the clear runs before any validation, so
every prior object of the generated collections is removed, the main
layout part generates nothing, but the support systems are still built —
the balance tank solid appears in the output. -/
theorem C4_unrecognized_layout_amended (cfg : Config) (s : Scene)
    (hL : cfg.layout_props.layout_type = .STAGGERED) :
    execute cfg s = clear_previous s ++ generated_components cfg ∧
    (∀ comp ∈ s, comp.collection ∈ clear_collection_names →
      comp ∉ clear_previous s) ∧
    main_layout_part cfg (compute_dimensions cfg) = ([], []) ∧
    (generated_components cfg).any (fun comp => comp.name == "Balance_Tank") = true := by
  refine ⟨rfl, ?_, ?_, ?_⟩
  · intro comp hmem hcoll hclear
    have h2 := (List.mem_filter.mp hclear).2
    exact (of_decide_eq_true h2) hcoll
  · simp only [main_layout_part]
    rw [hL]
  · obtain ⟨v, hv⟩ : ∃ v, (⟨"Pots", "Balance_Tank", v⟩ : Component) ∈
        balance_components cfg (compute_dimensions cfg) := by
      simp only [balance_components]
      exact ⟨_, List.mem_append_left _ (List.mem_cons_self _ _)⟩
    have hpre : (⟨"Pots", "Balance_Tank", v⟩ : Component) ∈
        (main_layout_part cfg (compute_dimensions cfg)).1 ++
          reservoir_part cfg (compute_dimensions cfg) ++
          balance_components cfg (compute_dimensions cfg) ++
          aeration_components cfg.component_props
            (main_layout_part cfg (compute_dimensions cfg)).2
            (reservoir_opt cfg (compute_dimensions cfg)) :=
      List.mem_append_left _ (List.mem_append_right _ hv)
    have hgen : (⟨"Pots", "Balance_Tank", v⟩ : Component) ∈
        generated_components cfg := by
      simp only [generated_components]
      by_cases hcc : cfg.create_connections = true
      · rw [if_pos hcc]
        exact mem_finalize_of_not_joined (List.mem_append_left _ hpre) rfl
      · rw [if_neg hcc]
        exact List.mem_append_left _ hpre
    exact List.any_eq_true.mpr ⟨_, hgen, by simp⟩

/-- Witness for C4 at the STAGGERED fixture: the layout part is empty and
the balance tank is generated anyway. -/
theorem C4_unrecognized_layout_amended_witness :
    main_layout_part cfg_staggered (compute_dimensions cfg_staggered) = ([], []) ∧
    (generated_components cfg_staggered).any
      (fun comp => comp.name == "Balance_Tank") = true := by
  have h := C4_unrecognized_layout_amended cfg_staggered prior_scene rfl
  exact ⟨h.2.2.1, h.2.2.2⟩

/-- C4 counterexample: with a STAGGERED layout the run does not abort and
does not leave the prior state untouched — the prior pot is destroyed and a
balance tank mesh is created. -/
theorem C4_unrecognized_layout_counterexample :
    (⟨"Pots", "Pot_0_0", ⟨0, 0, 0⟩⟩ : Component) ∈ prior_scene ∧
    (execute cfg_staggered prior_scene).map Component.name = ["Balance_Tank"] ∧
    (⟨"Pots", "Pot_0_0", ⟨0, 0, 0⟩⟩ : Component) ∉
      execute cfg_staggered prior_scene := by
  have hmap : (execute cfg_staggered prior_scene).map Component.name =
      ["Balance_Tank"] := rfl
  refine ⟨List.mem_cons_self _ _, hmap, fun hmem => ?_⟩
  have hname : "Pot_0_0" ∈ (execute cfg_staggered prior_scene).map Component.name :=
    List.mem_map_of_mem Component.name hmem
  rw [hmap] at hname
  simp at hname

/-- Clearing distributes over append. -/
theorem clear_previous_append (a b : Scene) :
    clear_previous (a ++ b) = clear_previous a ++ clear_previous b := by
  unfold clear_previous
  exact List.filter_append _ _

/-- Clearing is idempotent. -/
theorem clear_previous_idem (s : Scene) :
    clear_previous (clear_previous s) = clear_previous s := by
  unfold clear_previous
  exact List.filter_eq_self.mpr fun a ha => (List.mem_filter.mp ha).2

/-- Membership facts for the cleared collection names. -/
theorem mem_clear_pots : "Pots" ∈ clear_collection_names := by decide

/-- Pipes is a cleared collection. -/
theorem mem_clear_pipes : "Pipes" ∈ clear_collection_names := by decide

/-- Fittings is a cleared collection. -/
theorem mem_clear_fittings : "Fittings" ∈ clear_collection_names := by decide

/-- System is a cleared collection. -/
theorem mem_clear_system : "System" ∈ clear_collection_names := by decide

/-- Lighting is a cleared collection. -/
theorem mem_clear_lighting : "Lighting" ∈ clear_collection_names := by decide

/-- Pumps is a cleared collection. -/
theorem mem_clear_pumps : "Pumps" ∈ clear_collection_names := by decide

/-- Aeration is a cleared collection. -/
theorem mem_clear_aeration : "Aeration" ∈ clear_collection_names := by decide

/-- Sensors is a cleared collection. -/
theorem mem_clear_sensors : "Sensors" ∈ clear_collection_names := by decide

/-- Valves is a cleared collection. -/
theorem mem_clear_valves : "Valves" ∈ clear_collection_names := by decide

/-- Pipes produced by the pipe factory land in the Pipes collection, one of
the cleared collections. -/
theorem pipe_components_ok (ps : ℝ) (nm : String) (a b : Vec3) :
    ∀ comp ∈ pipe_components ps nm a b,
      comp.collection ∈ clear_collection_names := by
  intro comp hmem
  unfold pipe_components at hmem
  rcases hcr : PipeMesh.create ps nm a b with _ | p <;> rw [hcr] at hmem
  · simp at hmem
  · simp at hmem
    subst hmem
    exact mem_clear_pipes

/-- Manifold segments only produce fittings and pipes. -/
theorem manifold_segment_components_ok (pp : PipeProps) (cp : ComponentProps)
    (layout : LayoutProps) (dims : Dimensions) (c : ℕ) :
    ∀ comp ∈ manifold_segment_components pp cp layout dims c,
      comp.collection ∈ clear_collection_names := by
  intro comp hmem
  unfold manifold_segment_components at hmem
  by_cases hu : cp.use_unions = true
  · rw [if_pos hu] at hmem
    simp only [List.mem_append, List.mem_cons, List.not_mem_nil, or_false] at hmem
    rcases hmem with ((((h | h) | h) | h) | h) | h
    · subst h; exact mem_clear_fittings
    · subst h; exact mem_clear_fittings
    · exact pipe_components_ok _ _ _ _ comp h
    · exact pipe_components_ok _ _ _ _ comp h
    · exact pipe_components_ok _ _ _ _ comp h
    · exact pipe_components_ok _ _ _ _ comp h
  · rw [if_neg hu] at hmem
    simp only [List.mem_append] at hmem
    rcases hmem with h | h
    · exact pipe_components_ok _ _ _ _ comp h
    · exact pipe_components_ok _ _ _ _ comp h

/-- Column passes only produce fittings and pipes. -/
theorem grid_column_components_ok (pp : PipeProps) (cp : ComponentProps)
    (layout : LayoutProps) (dims : Dimensions) (c : ℕ) :
    ∀ comp ∈ grid_column_components pp cp layout dims c,
      comp.collection ∈ clear_collection_names := by
  intro comp hmem
  unfold grid_column_components at hmem
  simp only [List.mem_append, List.mem_cons, List.not_mem_nil, or_false] at hmem
  rcases hmem with (h | h) | h
  · subst h; exact mem_clear_fittings
  · subst h; exact mem_clear_fittings
  · by_cases hc : 0 < c
    · rw [if_pos hc] at h
      exact manifold_segment_components_ok pp cp layout dims c comp h
    · rw [if_neg hc] at h
      simp at h

/-- Pot cells only produce pots, valves and pipes. -/
theorem grid_pot_cell_components_ok (pp : PipeProps) (cp : ComponentProps)
    (layout : LayoutProps) (dims : Dimensions) (r c : ℕ) :
    ∀ comp ∈ grid_pot_cell_components pp cp layout dims r c,
      comp.collection ∈ clear_collection_names := by
  intro comp hmem
  unfold grid_pot_cell_components at hmem
  simp only [List.mem_append, List.mem_cons, List.not_mem_nil, or_false] at hmem
  rcases hmem with (h | h) | h
  · subst h; exact mem_clear_pots
  · by_cases hv : cp.add_drain_valves = true
    · rw [if_pos hv] at h
      simp only [List.mem_append, List.mem_cons, List.not_mem_nil, or_false] at h
      rcases h with (h | h) | h
      · subst h; exact mem_clear_valves
      · exact pipe_components_ok _ _ _ _ comp h
      · exact pipe_components_ok _ _ _ _ comp h
    · rw [if_neg hv] at h
      exact pipe_components_ok _ _ _ _ comp h
  · exact pipe_components_ok _ _ _ _ comp h

/-- The grid manifold generator writes only to cleared collections. -/
theorem grid_manifold_components_ok (pp : PipeProps) (cp : ComponentProps)
    (layout : LayoutProps) (dims : Dimensions) :
    ∀ comp ∈ grid_manifold_components pp cp layout dims,
      comp.collection ∈ clear_collection_names := by
  intro comp hmem
  unfold grid_manifold_components at hmem
  simp only [List.mem_append, List.mem_flatMap] at hmem
  rcases hmem with ⟨c, _, h⟩ | ⟨r, _, c, _, h⟩
  · exact grid_column_components_ok pp cp layout dims c comp h
  · exact grid_pot_cell_components_ok pp cp layout dims r c comp h

/-- Circular cells only produce pots, fittings and pipes. -/
theorem circular_cell_components_ok (pp : PipeProps) (dims : Dimensions)
    (i : ℕ) (pos : Vec3) :
    ∀ comp ∈ circular_cell_components pp dims i pos,
      comp.collection ∈ clear_collection_names := by
  intro comp hmem
  unfold circular_cell_components at hmem
  simp only [List.mem_append, List.mem_cons, List.not_mem_nil, or_false] at hmem
  rcases hmem with (h | h) | h
  · subst h; exact mem_clear_pots
  · subst h; exact mem_clear_fittings
  · exact pipe_components_ok _ _ _ _ comp h

/-- The circular generator writes only to cleared collections. -/
theorem circular_components_ok (pp : PipeProps) (layout : LayoutProps)
    (dims : Dimensions) :
    ∀ comp ∈ circular_components pp layout dims,
      comp.collection ∈ clear_collection_names := by
  intro comp hmem
  unfold circular_components at hmem
  simp only [List.mem_append, List.mem_cons, List.mem_flatMap, List.not_mem_nil,
    or_false] at hmem
  rcases hmem with h | ⟨pi, _, h⟩
  · subst h; exact mem_clear_fittings
  · exact circular_cell_components_ok pp dims pi.1 pi.2 comp h

/-- The reservoir system writes only to cleared collections. -/
theorem reservoir_components_ok (cfg : Config) (dims : Dimensions) :
    ∀ comp ∈ reservoir_components cfg dims,
      comp.collection ∈ clear_collection_names := by
  intro comp hmem
  unfold reservoir_components at hmem
  simp only [List.mem_append, List.mem_cons, List.not_mem_nil, or_false] at hmem
  rcases hmem with (((h | h | h) | h) | h) | h
  · subst h; exact mem_clear_pots
  · subst h; exact mem_clear_pumps
  · subst h; exact mem_clear_fittings
  · by_cases hg : cfg.layout_props.layout_type = .GRID
    · rw [if_pos hg] at h
      simp only [List.mem_append] at h
      rcases h with h | h
      · exact pipe_components_ok _ _ _ _ comp h
      · exact pipe_components_ok _ _ _ _ comp h
    · rw [if_neg hg] at h
      simp at h
  · by_cases hs : cfg.component_props.add_water_level_sensors = true
    · rw [if_pos hs] at h
      simp only [List.mem_cons, List.not_mem_nil, or_false] at h
      rcases h with h | h
      · subst h; exact mem_clear_sensors
      · subst h; exact mem_clear_sensors
    · rw [if_neg hs] at h
      simp at h
  · subst h; exact mem_clear_sensors

/-- The balance system writes only to cleared collections. -/
theorem balance_components_ok (cfg : Config) (dims : Dimensions) :
    ∀ comp ∈ balance_components cfg dims,
      comp.collection ∈ clear_collection_names := by
  intro comp hmem
  unfold balance_components at hmem
  simp only [List.mem_append, List.mem_cons, List.not_mem_nil, or_false] at hmem
  rcases hmem with h | h
  · subst h; exact mem_clear_pots
  · by_cases hg : cfg.layout_props.layout_type = .GRID
    · rw [if_pos hg] at h
      exact pipe_components_ok _ _ _ _ comp h
    · rw [if_neg hg] at h
      simp at h

/-- The aeration system writes only to the Aeration collection. -/
theorem aeration_components_ok (cp : ComponentProps) (pots : List PotInfo)
    (res : Option ReservoirInfo) :
    ∀ comp ∈ aeration_components cp pots res,
      comp.collection ∈ clear_collection_names := by
  intro comp hmem
  unfold aeration_components at hmem
  by_cases h0 : cp.air_stones_per_pot = 0
  · rw [if_pos h0] at hmem
    simp at hmem
  · rw [if_neg h0] at hmem
    simp only [List.mem_append, List.mem_cons, List.mem_flatMap, List.not_mem_nil,
      or_false] at hmem
    rcases hmem with h | ⟨pot, _, h⟩
    · subst h; exact mem_clear_aeration
    · by_cases h1 : cp.air_stones_per_pot = 1
      · rw [if_pos h1] at h
        simp only [List.mem_cons, List.not_mem_nil, or_false] at h
        subst h; exact mem_clear_aeration
      · rw [if_neg h1] at h
        rcases List.mem_map.mp h with ⟨i, _, hcomp⟩
        subst hcomp
        exact mem_clear_aeration

/-- The lighting grid writes only to the Lighting collection. -/
theorem generate_lighting_ok (lp : LightingProps) (bmin bmax : Vec3) :
    ∀ comp ∈ generate_lighting lp bmin bmax,
      comp.collection ∈ clear_collection_names := by
  intro comp hmem
  unfold generate_lighting at hmem
  by_cases he : lp.enable_lighting = true
  · rw [if_pos he] at hmem
    rcases List.mem_flatMap.mp hmem with ⟨i, _, h⟩
    rcases List.mem_map.mp h with ⟨j, _, hcomp⟩
    subst hcomp
    exact mem_clear_lighting
  · rw [if_neg he] at hmem
    simp at hmem

/-- The lighting pass writes only to the Lighting collection. -/
theorem lighting_part_ok (cfg : Config) (preLight : List Component) :
    ∀ comp ∈ lighting_part cfg preLight,
      comp.collection ∈ clear_collection_names := by
  intro comp hmem
  unfold lighting_part at hmem
  rcases hbb : get_total_bounding_box (preLight.filter fun comp2 =>
      decide (comp2.collection ∈ bbox_collection_names)) with _ | ⟨bmin, bmax⟩ <;>
    rw [hbb] at hmem
  · exact absurd hmem (by simp)
  · exact generate_lighting_ok cfg.lighting_props bmin bmax comp hmem

/-- The reservoir part writes only to cleared collections. -/
theorem reservoir_part_ok (cfg : Config) (dims : Dimensions) :
    ∀ comp ∈ reservoir_part cfg dims,
      comp.collection ∈ clear_collection_names := by
  intro comp hmem
  unfold reservoir_part at hmem
  by_cases hr : cfg.enable_reservoir = true
  · rw [if_pos hr] at hmem
    exact reservoir_components_ok cfg dims comp hmem
  · rw [if_neg hr] at hmem
    simp at hmem

/-- The main layout part writes only to cleared collections. -/
theorem main_layout_part_ok (cfg : Config) (dims : Dimensions) :
    ∀ comp ∈ (main_layout_part cfg dims).1,
      comp.collection ∈ clear_collection_names := by
  intro comp hmem
  simp only [main_layout_part] at hmem
  cases htype : cfg.layout_props.layout_type with
  | GRID =>
      rw [htype] at hmem
      exact grid_manifold_components_ok _ _ _ _ comp hmem
  | CIRCULAR =>
      rw [htype] at hmem
      exact circular_components_ok _ _ _ comp hmem
  | LINEAR =>
      rw [htype] at hmem
      exact grid_manifold_components_ok _ _ _ _ comp hmem
  | STAGGERED =>
      rw [htype] at hmem
      simp at hmem
  | CUSTOM =>
      rw [htype] at hmem
      simp at hmem

/-- The finalize join preserves membership in cleared collections. -/
theorem finalize_system_ok {comps : List Component}
    (h : ∀ comp ∈ comps, comp.collection ∈ clear_collection_names) :
    ∀ comp ∈ finalize_system comps,
      comp.collection ∈ clear_collection_names := by
  intro comp hmem
  simp only [finalize_system] at hmem
  rcases hf : comps.filter joined_in_finalize with _ | ⟨first, rest⟩ <;>
    rw [hf] at hmem
  · exact h comp hmem
  · replace hmem : comp ∈ comps.filter (fun c2 => !joined_in_finalize c2) ++
        [(⟨"System", "RDWC_Piping_System", first.loc⟩ : Component)] := hmem
    rcases List.mem_append.mp hmem with hm | hm
    · exact h comp (List.mem_filter.mp hm).1
    · simp only [List.mem_cons, List.not_mem_nil, or_false] at hm
      subst hm
      exact mem_clear_system

/-- Everything one run generates lands in a cleared collection. -/
theorem generated_components_ok (cfg : Config) :
    ∀ comp ∈ generated_components cfg,
      comp.collection ∈ clear_collection_names := by
  intro comp hmem
  simp only [generated_components] at hmem
  have hpre : ∀ comp2 ∈ (main_layout_part cfg (compute_dimensions cfg)).1 ++
      reservoir_part cfg (compute_dimensions cfg) ++
      balance_components cfg (compute_dimensions cfg) ++
      aeration_components cfg.component_props
        (main_layout_part cfg (compute_dimensions cfg)).2
        (reservoir_opt cfg (compute_dimensions cfg)),
      comp2.collection ∈ clear_collection_names := by
    intro comp2 h2
    rcases List.mem_append.mp h2 with h3 | h3
    · rcases List.mem_append.mp h3 with h4 | h4
      · rcases List.mem_append.mp h4 with h5 | h5
        · exact main_layout_part_ok cfg (compute_dimensions cfg) comp2 h5
        · exact reservoir_part_ok cfg (compute_dimensions cfg) comp2 h5
      · exact balance_components_ok cfg (compute_dimensions cfg) comp2 h4
    · exact aeration_components_ok cfg.component_props _ _ comp2 h3
  have hall : ∀ comp2 ∈ ((main_layout_part cfg (compute_dimensions cfg)).1 ++
      reservoir_part cfg (compute_dimensions cfg) ++
      balance_components cfg (compute_dimensions cfg) ++
      aeration_components cfg.component_props
        (main_layout_part cfg (compute_dimensions cfg)).2
        (reservoir_opt cfg (compute_dimensions cfg))) ++
      lighting_part cfg ((main_layout_part cfg (compute_dimensions cfg)).1 ++
        reservoir_part cfg (compute_dimensions cfg) ++
        balance_components cfg (compute_dimensions cfg) ++
        aeration_components cfg.component_props
          (main_layout_part cfg (compute_dimensions cfg)).2
          (reservoir_opt cfg (compute_dimensions cfg))),
      comp2.collection ∈ clear_collection_names := by
    intro comp2 h2
    rcases List.mem_append.mp h2 with h3 | h3
    · exact hpre comp2 h3
    · exact lighting_part_ok cfg _ comp2 h3
  by_cases hcc : cfg.create_connections = true
  · rw [if_pos hcc] at hmem
    exact finalize_system_ok hall comp hmem
  · rw [if_neg hcc] at hmem
    exact hall comp hmem

/-- A fresh generation leaves nothing behind for the next clear. -/
theorem clear_previous_generated (cfg : Config) :
    clear_previous (generated_components cfg) = [] := by
  unfold clear_previous
  rw [List.filter_eq_nil_iff]
  intro comp hmem
  have hin := generated_components_ok cfg comp hmem
  simp [hin]

/-- C7: running the generator twice with the same configuration, the second
run starting from the state left by the first, yields exactly the same
scene — the clear removes everything a run generates and the rebuild
depends only on the configuration. -/
theorem C7_idempotent_regeneration (cfg : Config) (s : Scene) :
    execute cfg (execute cfg s) = execute cfg s := by
  unfold execute
  rw [clear_previous_append, clear_previous_idem, clear_previous_generated,
    List.append_nil]

/-- C10 amended: the LINEAR branch generates a one-row grid but on the
dimension tuple computed from the original configuration, whose inlet
manifold offset depends on the stored rows value; the rows field itself is
restored after the run. -/
theorem C10_linear_amended (cfg : Config)
    (hL : cfg.layout_props.layout_type = .LINEAR) :
    rows_after_run cfg.layout_props = cfg.layout_props.rows ∧
    main_layout_part cfg (compute_dimensions cfg) =
      (grid_manifold_components cfg.pipe_props cfg.component_props
          { cfg.layout_props with rows := 1 } (compute_dimensions cfg),
        grid_pot_infos { cfg.layout_props with rows := 1 } (compute_dimensions cfg)) ∧
    (compute_dimensions cfg).manifold_y_in =
      ((cfg.layout_props.rows : ℝ) - 1) * cfg.layout_props.spacing_y +
        cfg.layout_props.spacing_y * 0.8 := by
  refine ⟨?_, ?_, rfl⟩
  · unfold rows_after_run
    rw [hL]
  · simp only [main_layout_part]
    rw [hL]

/-- Witness for C10 at the two-row LINEAR fixture: rows is restored to 2
and the inlet manifold offset is computed from the stored two rows. -/
theorem C10_linear_amended_witness :
    rows_after_run cfg_linear.layout_props = 2 ∧
    (compute_dimensions cfg_linear).manifold_y_in =
      ((cfg_linear.layout_props.rows : ℝ) - 1) * cfg_linear.layout_props.spacing_y +
        cfg_linear.layout_props.spacing_y * 0.8 := by
  have h := C10_linear_amended cfg_linear rfl
  exact ⟨h.1, h.2.2⟩

/-- C10 counterexample: a LINEAR run with rows stored as 2 places its first
inlet tee at y = 1.08, while the GRID run with rows = 1 places it at
y = 0.48 — the two runs do not produce the same components. -/
theorem C10_linear_counterexample :
    ((execute cfg_linear []).head?.map Component.name = some "Tee_Inlet_0") ∧
    ((execute cfg_grid1 []).head?.map Component.name = some "Tee_Inlet_0") ∧
    (((execute cfg_linear []).head?.map fun comp => comp.loc.y) = some 1.08) ∧
    (((execute cfg_grid1 []).head?.map fun comp => comp.loc.y) = some 0.48) ∧
    execute cfg_linear [] ≠ execute cfg_grid1 [] := by
  have hy1 : ((execute cfg_linear []).head?.map fun comp => comp.loc.y) =
      some ((compute_dimensions cfg_linear).manifold_y_in) := rfl
  have hy2 : ((execute cfg_grid1 []).head?.map fun comp => comp.loc.y) =
      some ((compute_dimensions cfg_grid1).manifold_y_in) := rfl
  have hv1 : (compute_dimensions cfg_linear).manifold_y_in = 1.08 := by
    show (((2 : ℕ) : ℝ) - 1) * 0.6 + 0.6 * 0.8 = 1.08
    norm_num
  have hv2 : (compute_dimensions cfg_grid1).manifold_y_in = 0.48 := by
    show (((1 : ℕ) : ℝ) - 1) * 0.6 + 0.6 * 0.8 = 0.48
    norm_num
  refine ⟨rfl, rfl, ?_, ?_, ?_⟩
  · rw [hy1, hv1]
  · rw [hy2, hv2]
  · intro heq
    have hsame : ((execute cfg_linear []).head?.map fun comp => comp.loc.y) =
        ((execute cfg_grid1 []).head?.map fun comp => comp.loc.y) := by rw [heq]
    rw [hy1, hy2, hv1, hv2] at hsame
    have h2 : (1.08 : ℝ) = 0.48 := Option.some.inj hsame
    norm_num at h2

end HydroGen
